import Mathlib

/-!
# SMB349 battery-charger driver (`drivers/power/smb349-charger.c`)

A shallow embedding of the driver's control logic.  The chip is a register
file behind a byte-oriented bus whose transactions may fail; every driver
routine is a function from the bus (and, where it touches it, the device
record) to its C return value and the updated bus.  Diagnostics (`dev_err`)
have no effect on the state and are left out.
-/

namespace SMB349

/-! ## Register map and bit masks (the `#define`s of the driver) -/

abbrev SMB349_THERM_CTRL : Nat := 0x07
abbrev SMB349_FAULT_INTR : Nat := 0x0C
abbrev SMB349_STS_INTR_1 : Nat := 0x0D
abbrev SMB349_CMD_REG : Nat := 0x30
abbrev SMB349_INTR_STS_A : Nat := 0x35
abbrev SMB349_INTR_STS_B : Nat := 0x36
abbrev SMB349_STS_REG_D : Nat := 0x3E

abbrev SMB349_ENABLE_WRITE : Nat := 1
abbrev SMB349_DISABLE_WRITE : Nat := 0
abbrev ENABLE_WRT_ACCESS : Nat := 0x80
abbrev THERM_CTRL : Nat := 0x10
abbrev BATTERY_MISSING : Nat := 0x10
abbrev DEDICATED_CHARGER : Nat := 0x04
abbrev CHRG_DOWNSTRM_PORT : Nat := 0x08
abbrev ENABLE_CHARGE : Nat := 0x02

/-- Modelled from the spec: the errno constants come from a kernel header that
is not part of the driver file; `EIO` is the transport-not-functional code. -/
abbrev EIO : Nat := 5

/-- Modelled from the spec: errno constant of a failed allocation (kernel
header, not part of the driver file). -/
abbrev ENOMEM : Nat := 12

/-- Modelled from the spec: errno constant of the not-registered error
returned by `register_callback` (kernel header, not part of the driver file). -/
abbrev ENODEV : Nat := 19

/-! ## The bus -/

/-- One transaction on the bus, with the value the transport returned for it
(negative: the errno of a failed transaction). -/
inductive BusOp where
  | read (reg : Nat) (res : Int)
  | write (reg : Nat) (val : Nat) (res : Int)
  | block_read (reg : Nat) (len : Nat) (res : Int)
  deriving DecidableEq, Repr

/-- The chip as seen through the bus.  `regs` is the register file, `fault n`
tells whether the `n`-th transaction (counted from 0 over the life of the bus)
fails, `some k` meaning failure with errno `-(k+1)`, and `trace` is the list of
transactions issued so far, oldest first. -/
structure Bus where
  regs : Nat → Nat
  fault : Nat → Option Nat
  trace : List BusOp

/-- Modelled from the spec: the byte read primitive of the register transport
(`i2c_smbus_read_byte_data`, bus core, not part of the driver file).  A
successful read returns the addressed register's byte and leaves the register
file as it is; a failed one returns the negative error code. -/
def i2c_smbus_read_byte_data (b : Bus) (reg : Nat) : Int × Bus :=
  match b.fault b.trace.length with
  | some k => (Int.negSucc k, { b with trace := b.trace ++ [BusOp.read reg (Int.negSucc k)] })
  | none =>
    (((b.regs reg % 256 : Nat) : Int),
      { b with trace := b.trace ++ [BusOp.read reg ((b.regs reg % 256 : Nat) : Int)] })

/-- Modelled from the spec: the byte write primitive of the register transport
(`i2c_smbus_write_byte_data`, bus core, not part of the driver file).  A
successful write stores the byte and returns 0; a failed one returns the
negative error code and stores nothing. -/
def i2c_smbus_write_byte_data (b : Bus) (reg : Nat) (value : Nat) : Int × Bus :=
  match b.fault b.trace.length with
  | some k =>
    (Int.negSucc k, { b with trace := b.trace ++ [BusOp.write reg value (Int.negSucc k)] })
  | none =>
    (0, { b with
            regs := fun r => if r = reg then value else b.regs r
            trace := b.trace ++ [BusOp.write reg value 0] })

/-- Modelled from the spec: the block read primitive of the register transport
(`i2c_smbus_read_i2c_block_data`, bus core, not part of the driver file).  It
returns the number of bytes read, or the negative error code; the register
file of the model is left as it is. -/
def i2c_smbus_read_i2c_block_data (b : Bus) (reg : Nat) (len : Nat) : Int × Bus :=
  match b.fault b.trace.length with
  | some k =>
    (Int.negSucc k, { b with trace := b.trace ++ [BusOp.block_read reg len (Int.negSucc k)] })
  | none => ((len : Int), { b with trace := b.trace ++ [BusOp.block_read reg len (len : Int)] })

/-! ## C integer operators on the values the driver handles -/

/-- C `x & ~(1 << bit)` for a non-negative 32-bit `int x`: the operand
`~(1 << bit)` has the bit pattern `0xFFFFFFFF - (1 << bit)`. -/
def and_not_bit (x : Int) (bit : Nat) : Nat :=
  x.toNat &&& (0xFFFFFFFF - (1 <<< bit))

/-- C `x | v` for a non-negative `int x` and a byte `v`. -/
def or_bits (x : Int) (v : Nat) : Nat :=
  x.toNat ||| v

/-- C `x & v` for a non-negative `int x` and a mask `v`, as a truth value. -/
def test_bits (x : Int) (v : Nat) : Bool :=
  x.toNat &&& v != 0

/-! ## Register access layer -/

/-- `smb349_read`: one byte read; the result is the byte or a negative errno. -/
def smb349_read (b : Bus) (reg : Nat) : Int × Bus :=
  i2c_smbus_read_byte_data b reg

/-- `smb349_write`: one byte write; the `u8 value` parameter keeps the low
eight bits of the argument. -/
def smb349_write (b : Bus) (reg : Nat) (value : Nat) : Int × Bus :=
  i2c_smbus_write_byte_data b reg (value % 256)

/-- `smb349_update_reg`: read, OR in `value`, write back. -/
def smb349_update_reg (b : Bus) (reg : Nat) (value : Nat) : Int × Bus :=
  let rd := smb349_read b reg
  if rd.1 < 0 then rd
  else
    let wr := smb349_write rd.2 reg (or_bits rd.1 value)
    if wr.1 < 0 then wr else wr

/-! ## Write-protection gate -/

/-- `smb349_volatile_writes`: with `SMB349_ENABLE_WRITE` OR the gate bit into
the command register, otherwise read the command register and write it back
with bit 7 cleared. -/
def smb349_volatile_writes (b : Bus) (value : Nat) : Int × Bus :=
  if value = SMB349_ENABLE_WRITE then
    let up := smb349_update_reg b SMB349_CMD_REG ENABLE_WRT_ACCESS
    if up.1 < 0 then up else up
  else
    let rd := smb349_read b SMB349_CMD_REG
    if rd.1 < 0 then rd
    else
      let wr := smb349_write rd.2 SMB349_CMD_REG (and_not_bit rd.1 7)
      if wr.1 < 0 then wr else wr

/-- `smb349_clear_interrupts`: a six-byte block read from `SMB349_INTR_STS_A`;
the outcome is only logged. -/
def smb349_clear_interrupts (b : Bus) : Bus :=
  (i2c_smbus_read_i2c_block_data b SMB349_INTR_STS_A 6).2

/-! ## OTG mode control and charger control -/

/-- `smb349_configure_otg`: every `goto error` returns `ret` at once. -/
def smb349_configure_otg (b : Bus) (enable : Int) : Int × Bus :=
  let en := smb349_volatile_writes b SMB349_ENABLE_WRITE
  if en.1 < 0 then en
  else if enable ≠ 0 then
    let up := smb349_update_reg en.2 SMB349_CMD_REG 0x10
    if up.1 < 0 then up
    else
      let dis := smb349_volatile_writes up.2 SMB349_DISABLE_WRITE
      dis
  else
    let rd := smb349_read en.2 SMB349_CMD_REG
    if rd.1 < 0 then rd
    else
      let wr := smb349_write rd.2 SMB349_CMD_REG (and_not_bit rd.1 4)
      if wr.1 < 0 then wr
      else
        let dis := smb349_volatile_writes wr.2 SMB349_DISABLE_WRITE
        dis

/-- `smb349_configure_charger`: every `goto error` returns `ret` at once. -/
def smb349_configure_charger (b : Bus) (value : Int) : Int × Bus :=
  let en := smb349_volatile_writes b SMB349_ENABLE_WRITE
  if en.1 < 0 then en
  else if value ≠ 0 then
    let up := smb349_update_reg en.2 SMB349_CMD_REG ENABLE_CHARGE
    if up.1 < 0 then up
    else
      let th := smb349_update_reg up.2 SMB349_THERM_CTRL THERM_CTRL
      if th.1 < 0 then th
      else
        let dis := smb349_volatile_writes th.2 SMB349_DISABLE_WRITE
        dis
  else
    let rd := smb349_read en.2 SMB349_CMD_REG
    if rd.1 < 0 then rd
    else
      let wr := smb349_write rd.2 SMB349_CMD_REG (and_not_bit rd.1 1)
      if wr.1 < 0 then wr
      else
        let dis := smb349_volatile_writes wr.2 SMB349_DISABLE_WRITE
        dis

/-- `smb349_configure_interrupts`: every `goto error` returns `ret` at once. -/
def smb349_configure_interrupts (b : Bus) : Int × Bus :=
  let en := smb349_volatile_writes b SMB349_ENABLE_WRITE
  if en.1 < 0 then en
  else
    let fi := smb349_update_reg en.2 SMB349_FAULT_INTR 0xff
    if fi.1 < 0 then fi
    else
      let si := smb349_update_reg fi.2 SMB349_STS_INTR_1 0xff
      if si.1 < 0 then si
      else
        let dis := smb349_volatile_writes si.2 SMB349_DISABLE_WRITE
        dis

/-! ## The device record -/

/-- Modelled from the spec: the charging activity enum of the driver's header
(`linux/smb349-charger.h`, not part of the driver file); the spec names the
two values the driver assigns. -/
inductive charging_states where
  | stopped
  | progress
  deriving DecidableEq, Repr

/-- Modelled from the spec: the source classification enum of the driver's
header (`linux/smb349-charger.h`, not part of the driver file). -/
inductive charger_type where
  | NONE
  | AC
  | USB
  deriving DecidableEq, Repr

/-- Modelled from the spec: the device record `struct smb349_charger` of the
driver's header, without the bus handles (`client`, `dev`), which the model
passes as the `Bus` argument.  A function pointer is a number, `none` being
the null pointer; the opaque callback context is a number. -/
structure smb349_charger where
  state : charging_states
  chrg_type : charger_type
  charger_cb : Option Nat
  charger_cb_data : Nat
  deriving DecidableEq, Repr

/-- One invocation of the notification callback: the function called and the
three arguments it received. -/
structure CbCall where
  fn : Nat
  state : charging_states
  chrg_type : charger_type
  args : Nat
  deriving DecidableEq, Repr

/-- What a run of the interrupt handler leaves behind: the bus, the device
record and the callback invocations it made, in order. -/
structure IsrResult where
  bus : Bus
  charger : smb349_charger
  calls : List CbCall

/-- The `if (charger->charger_cb) charger->charger_cb(...)` statement of the
handler. -/
def invoke_charger_cb (c : smb349_charger) : List CbCall :=
  match c.charger_cb with
  | some f => [{ fn := f, state := c.state, chrg_type := c.chrg_type, args := c.charger_cb_data }]
  | none => []

/-- The `irq_error:` label of the handler: clear the interrupt latches and
return. -/
def irq_error (b : Bus) (c : smb349_charger) (calls : List CbCall) : IsrResult :=
  { bus := smb349_clear_interrupts b, charger := c, calls := calls }

/-! ## Interrupt-driven state machine -/

/-- The classification statement of the handler:
`if (val & DEDICATED_CHARGER) chrg_type = AC; else if (val & CHRG_DOWNSTRM_PORT) chrg_type = USB;`. -/
def classify_charger (c : smb349_charger) (val : Int) : smb349_charger :=
  if test_bits val DEDICATED_CHARGER then { c with chrg_type := charger_type.AC }
  else if test_bits val CHRG_DOWNSTRM_PORT then { c with chrg_type := charger_type.USB }
  else c

/-- `smb349_status_isr`: the threaded interrupt handler. -/
def smb349_status_isr (b : Bus) (c : smb349_charger) : IsrResult :=
  let rd := smb349_read b SMB349_STS_REG_D
  if rd.1 < 0 then irq_error rd.2 c []
  else if rd.1 ≠ 0 then
    let c1 : smb349_charger := classify_charger c rd.1
    let cfg := smb349_configure_charger rd.2 1
    if cfg.1 < 0 then irq_error cfg.2 c1 []
    else
      let c2 : smb349_charger := { c1 with state := charging_states.progress }
      irq_error cfg.2 c2 (invoke_charger_cb c2)
  else
    let c1 : smb349_charger := { c with state := charging_states.stopped }
    let cfg := smb349_configure_charger rd.2 0
    if cfg.1 < 0 then irq_error cfg.2 c1 []
    else
      let ci := smb349_configure_interrupts cfg.2
      if ci.1 < 0 then irq_error ci.2 c1 []
      else irq_error ci.2 c1 (invoke_charger_cb c1)

/-! ## Notification registry -/

/-- `register_callback`: the first argument is the global `charger` pointer,
`none` when no device exists. -/
def register_callback (charger : Option smb349_charger) (cb : Option Nat) (args : Nat) :
    Int × Option smb349_charger :=
  match charger with
  | none => (-(ENODEV : Int), none)
  | some charger_data =>
    (0, some { charger_data with charger_cb := cb, charger_cb_data := args })

/-! ## Presence query -/

/-- `smb349_battery_online`: 1 when the battery-missing bit is clear, 0 when it
is set, the negative errno when the read fails. -/
def smb349_battery_online (b : Bus) : Int × Bus :=
  let rd := smb349_read b SMB349_INTR_STS_B
  if rd.1 < 0 then rd
  else if test_bits rd.1 BATTERY_MISSING then (0, rd.2)
  else (1, rd.2)

/-! ## OTG mode coordinator -/

/-- Modelled from the spec: the host-role states of `enum usb_otg_state`
(`linux/usb/otg.h`, not part of the driver file).  The driver reacts to the
two mode signals `OTG_STATE_A_HOST` and `OTG_STATE_A_SUSPEND`. -/
inductive usb_otg_state where
  | OTG_STATE_UNDEFINED
  | OTG_STATE_B_IDLE
  | OTG_STATE_B_SRP_INIT
  | OTG_STATE_B_PERIPHERAL
  | OTG_STATE_B_WAIT_ACON
  | OTG_STATE_B_HOST
  | OTG_STATE_A_IDLE
  | OTG_STATE_A_WAIT_VRISE
  | OTG_STATE_A_WAIT_BCON
  | OTG_STATE_A_HOST
  | OTG_STATE_A_SUSPEND
  | OTG_STATE_A_PERIPHERAL
  | OTG_STATE_A_WAIT_VFALL
  | OTG_STATE_A_VBUS_ERR
  deriving DecidableEq, Repr

/-- `smb349_otg_status`: the return value of every step is only logged. -/
def smb349_otg_status (b : Bus) (otg_state : usb_otg_state) : Bus :=
  if otg_state = usb_otg_state.OTG_STATE_A_HOST then
    let ch := smb349_configure_charger b 0
    let otg := smb349_configure_otg ch.2 1
    otg.2
  else if otg_state = usb_otg_state.OTG_STATE_A_SUSPEND then
    let otg := smb349_configure_otg b 0
    let ch := smb349_configure_charger otg.2 1
    let ci := smb349_configure_interrupts ch.2
    ci.2
  else b

/-! ## Attach -/

/-- The collaborators of `smb349_probe` that are not on the register bus.
`ret_uninit` is whatever the automatic variable `ret` holds before its first
assignment. -/
structure ProbeEnv where
  smbus_byte : Bool
  kzalloc_ok : Bool
  otg_callback_ret : Int
  request_irq_ret : Int
  ret_uninit : Int

/-- What `smb349_probe` leaves behind.  `charger` is the device record the
global pointer refers to (`none`: the pointer is null), `freed` tells that the
record was passed to `kfree`, `otg_registered` that `register_otg_callback` was
called and `irq_requested` that `request_threaded_irq` was called. -/
structure ProbeResult where
  ret : Int
  bus : Bus
  charger : Option smb349_charger
  freed : Bool
  otg_registered : Bool
  irq_requested : Bool

/-- Modelled from the spec: the record `kzalloc` returns is zero-filled; the
spec gives `Stopped` as the state assumed at attach, no source type and no
callback. -/
def kzalloc_charger : smb349_charger :=
  { state := charging_states.stopped, chrg_type := charger_type.NONE,
    charger_cb := none, charger_cb_data := 0 }

/-- `smb349_probe`.  The `error:` label frees the record and returns `ret`. -/
def smb349_probe (b : Bus) (env : ProbeEnv) : ProbeResult :=
  if !env.smbus_byte then
    { ret := -( EIO : Int), bus := b, charger := none, freed := false,
      otg_registered := false, irq_requested := false }
  else if !env.kzalloc_ok then
    { ret := -(ENOMEM : Int), bus := b, charger := none, freed := false,
      otg_registered := false, irq_requested := false }
  else
    let charger := kzalloc_charger
    let online := smb349_battery_online b
    if online.1 = 0 then
      { ret := env.ret_uninit, bus := online.2, charger := some charger, freed := true,
        otg_registered := false, irq_requested := false }
    else
      let ret := env.otg_callback_ret
      if ret < 0 then
        { ret := ret, bus := online.2, charger := some charger, freed := true,
          otg_registered := true, irq_requested := false }
      else
        let cfg := smb349_configure_charger online.2 1
        if cfg.1 < 0 then
          { ret := cfg.1, bus := cfg.2, charger := some charger, freed := false,
            otg_registered := true, irq_requested := false }
        else
          let ci := smb349_configure_interrupts cfg.2
          if ci.1 < 0 then
            { ret := ci.1, bus := ci.2, charger := some charger, freed := true,
              otg_registered := true, irq_requested := false }
          else
            let ret := env.request_irq_ret
            if ret ≠ 0 then
              { ret := ret, bus := ci.2, charger := some charger, freed := true,
                otg_registered := true, irq_requested := true }
            else
              { ret := 0, bus := ci.2, charger := some charger, freed := false,
                otg_registered := true, irq_requested := true }

/-! ## Vocabulary of the statements -/

/-- The value the transport returned for a transaction. -/
def BusOp.res : BusOp → Int
  | BusOp.read _ res => res
  | BusOp.write _ _ res => res
  | BusOp.block_read _ _ res => res

/-- Whether a transaction is a block read. -/
def BusOp.is_block : BusOp → Bool
  | BusOp.block_read _ _ _ => true
  | _ => false

/-- Whether a transaction is a register write. -/
def BusOp.is_write : BusOp → Bool
  | BusOp.write _ _ _ => true
  | _ => false

/-- The byte a transaction writes to register `reg`, if it is such a write. -/
def BusOp.written (reg : Nat) : BusOp → Option Nat
  | BusOp.write r v _ => if r = reg then some v else none
  | _ => none

/-- The bytes written to register `reg` by a list of transactions, in order. -/
def writes_to (reg : Nat) (t : List BusOp) : List Nat :=
  t.filterMap (BusOp.written reg)

/-- The transactions a routine issued: what it appended to the trace of the
bus it started on. -/
def issued (b b' : Bus) : List BusOp :=
  b'.trace.drop b.trace.length

/-- Every transaction on the bus succeeds. -/
def Bus.ok (b : Bus) : Prop := ∀ n, b.fault n = none

/-- The byte a successful read-OR-write leaves in a register that held `y`. -/
def byte_or (y v : Nat) : Nat :=
  (y % 256 ||| v) % 256

/-- The byte a successful read-clear-write of one bit leaves in a register that
held `y`. -/
def byte_clr (y bit : Nat) : Nat :=
  (y % 256 &&& (0xFFFFFFFF - (1 <<< bit))) % 256

/-- Register file after a successful read-OR-write of `reg`. -/
def regs_or (r : Nat → Nat) (reg v : Nat) : Nat → Nat :=
  fun x => if x = reg then byte_or (r reg) v else r x

/-- Register file after a successful read-clear-write of one bit of `reg`. -/
def regs_clr (r : Nat → Nat) (reg bit : Nat) : Nat → Nat :=
  fun x => if x = reg then byte_clr (r reg) bit else r x

/-- Transactions of a successful read-OR-write of `reg`. -/
def ops_or (r : Nat → Nat) (reg v : Nat) : List BusOp :=
  [BusOp.read reg (Int.ofNat (r reg % 256)), BusOp.write reg (byte_or (r reg) v) 0]

/-- Transactions of a successful read-clear-write of one bit of `reg`. -/
def ops_clr (r : Nat → Nat) (reg bit : Nat) : List BusOp :=
  [BusOp.read reg (Int.ofNat (r reg % 256)), BusOp.write reg (byte_clr (r reg) bit) 0]

/-- Register file after a successful enable-charging sequence. -/
def regs_charger_on (r : Nat → Nat) : Nat → Nat :=
  regs_clr (regs_or (regs_or (regs_or r 0x30 0x80) 0x30 0x02) 0x07 0x10) 0x30 7

/-- Transactions of a successful enable-charging sequence. -/
def ops_charger_on (r : Nat → Nat) : List BusOp :=
  ops_or r 0x30 0x80 ++ (ops_or (regs_or r 0x30 0x80) 0x30 0x02 ++
    (ops_or (regs_or (regs_or r 0x30 0x80) 0x30 0x02) 0x07 0x10 ++
      ops_clr (regs_or (regs_or (regs_or r 0x30 0x80) 0x30 0x02) 0x07 0x10) 0x30 7))

/-- Register file after a successful disable-charging sequence. -/
def regs_charger_off (r : Nat → Nat) : Nat → Nat :=
  regs_clr (regs_clr (regs_or r 0x30 0x80) 0x30 1) 0x30 7

/-- Transactions of a successful disable-charging sequence. -/
def ops_charger_off (r : Nat → Nat) : List BusOp :=
  ops_or r 0x30 0x80 ++ (ops_clr (regs_or r 0x30 0x80) 0x30 1 ++
    ops_clr (regs_clr (regs_or r 0x30 0x80) 0x30 1) 0x30 7)

/-- Register file after a successful enable-OTG sequence. -/
def regs_otg_on (r : Nat → Nat) : Nat → Nat :=
  regs_clr (regs_or (regs_or r 0x30 0x80) 0x30 0x10) 0x30 7

/-- Transactions of a successful enable-OTG sequence. -/
def ops_otg_on (r : Nat → Nat) : List BusOp :=
  ops_or r 0x30 0x80 ++ (ops_or (regs_or r 0x30 0x80) 0x30 0x10 ++
    ops_clr (regs_or (regs_or r 0x30 0x80) 0x30 0x10) 0x30 7)

/-- Register file after a successful disable-OTG sequence. -/
def regs_otg_off (r : Nat → Nat) : Nat → Nat :=
  regs_clr (regs_clr (regs_or r 0x30 0x80) 0x30 4) 0x30 7

/-- Transactions of a successful disable-OTG sequence. -/
def ops_otg_off (r : Nat → Nat) : List BusOp :=
  ops_or r 0x30 0x80 ++ (ops_clr (regs_or r 0x30 0x80) 0x30 4 ++
    ops_clr (regs_clr (regs_or r 0x30 0x80) 0x30 4) 0x30 7)

/-- Register file after a successful interrupt configuration. -/
def regs_interrupts (r : Nat → Nat) : Nat → Nat :=
  regs_clr (regs_or (regs_or (regs_or r 0x30 0x80) 0x0C 0xff) 0x0D 0xff) 0x30 7

/-- Transactions of a successful interrupt configuration. -/
def ops_interrupts (r : Nat → Nat) : List BusOp :=
  ops_or r 0x30 0x80 ++ (ops_or (regs_or r 0x30 0x80) 0x0C 0xff ++
    (ops_or (regs_or (regs_or r 0x30 0x80) 0x0C 0xff) 0x0D 0xff ++
      ops_clr (regs_or (regs_or (regs_or r 0x30 0x80) 0x0C 0xff) 0x0D 0xff) 0x30 7))

/-- Outcome `r` of a run of byte transactions started on `b` that stops at its
first failure: the fault pattern is untouched, the trace grows by byte
transactions only, and either the result is non-negative and every
transaction succeeded, or the result is the negative code of the last
transaction and every transaction before it succeeded. -/
def ByteSeq (b : Bus) (r : Int × Bus) : Prop :=
  r.2.fault = b.fault ∧
  ∃ ops, r.2.trace = b.trace ++ ops ∧ (∀ op ∈ ops, op.is_block = false) ∧
    ((0 ≤ r.1 ∧ ∀ op ∈ ops, 0 ≤ op.res) ∨
     (r.1 < 0 ∧ ∃ pre last, ops = pre ++ [last] ∧ (∀ op ∈ pre, 0 ≤ op.res) ∧ last.res = r.1))

/-- The bus transactions of the handler before the `irq_error:` label, as one
run that stops at the first failure; the result is negative exactly when the
handler jumped to the label. -/
def isr_seq (b : Bus) : Int × Bus :=
  if (smb349_read b SMB349_STS_REG_D).1 < 0 then smb349_read b SMB349_STS_REG_D
  else if (smb349_read b SMB349_STS_REG_D).1 ≠ 0 then
    smb349_configure_charger (smb349_read b SMB349_STS_REG_D).2 1
  else if (smb349_configure_charger (smb349_read b SMB349_STS_REG_D).2 0).1 < 0 then
    smb349_configure_charger (smb349_read b SMB349_STS_REG_D).2 0
  else
    smb349_configure_interrupts (smb349_configure_charger (smb349_read b SMB349_STS_REG_D).2 0).2

/-- The device record the handler leaves behind. -/
def isr_charger (b : Bus) (c : smb349_charger) : smb349_charger :=
  if (smb349_read b SMB349_STS_REG_D).1 < 0 then c
  else if (smb349_read b SMB349_STS_REG_D).1 ≠ 0 then
    if (smb349_configure_charger (smb349_read b SMB349_STS_REG_D).2 1).1 < 0 then
      classify_charger c (smb349_read b SMB349_STS_REG_D).1
    else
      { classify_charger c (smb349_read b SMB349_STS_REG_D).1 with
          state := charging_states.progress }
  else { c with state := charging_states.stopped }

/-! ## Concrete inputs -/

/-- A bus whose third transaction fails with `-EIO`, all registers zero. -/
def gate_open_bus : Bus :=
  ⟨fun _ => 0, fun n => if n = 2 then some 4 else none, []⟩

/-- A device record with a callback registered. -/
def cb_charger : smb349_charger :=
  { state := charging_states.stopped, chrg_type := charger_type.NONE,
    charger_cb := some 1, charger_cb_data := 7 }

/-- A bus that reports a dedicated charger and whose first transaction fails. -/
def status_fail_bus : Bus :=
  ⟨fun x => if x = 0x3E then 0x04 else 0, fun n => if n = 0 then some 4 else none, []⟩

/-- A fault-free bus that reports a dedicated charger. -/
def ac_bus : Bus :=
  ⟨fun x => if x = 0x3E then 0x04 else 0, fun _ => none, []⟩

/-- A fault-free bus that reports a downstream port. -/
def usb_bus : Bus :=
  ⟨fun x => if x = 0x3E then 0x08 else 0, fun _ => none, []⟩

/-- A fault-free bus that reports both source bits. -/
def ac_usb_bus : Bus :=
  ⟨fun x => if x = 0x3E then 0x0C else 0, fun _ => none, []⟩

/-- A fault-free bus that reports no source, every other register all ones. -/
def stop_bus : Bus :=
  ⟨fun x => if x = 0x3E then 0 else 0xFF, fun _ => none, []⟩

/-- A bus with charging enabled whose first transaction fails. -/
def charging_fail_bus : Bus :=
  ⟨fun x => if x = 0x30 then 0x02 else 0, fun n => if n = 0 then some 4 else none, []⟩

/-- A fault-free bus with charging enabled and OTG disabled. -/
def charging_bus : Bus :=
  ⟨fun x => if x = 0x30 then 0x02 else 0, fun _ => none, []⟩

/-- A fault-free bus whose battery-missing bit is set. -/
def no_battery_bus : Bus :=
  ⟨fun x => if x = 0x36 then 0x10 else 0, fun _ => none, []⟩

/-- An attach environment in which every collaborator succeeds and the
automatic variable `ret` holds `v` before its first assignment. -/
def attach_env (v : Int) : ProbeEnv :=
  { smbus_byte := true, kzalloc_ok := true, otg_callback_ret := 0, request_irq_ret := 0,
    ret_uninit := v }

/-- The facts about the six bytes the host-role transition writes to the
command register when it held `z`. -/
def host_bytes_ok (z : Nat) : Bool :=
  decide (byte_or z 0x80 &&& 0x02 ≠ 0) && decide (byte_or z 0x80 &&& 0x10 = 0) &&
  decide (byte_clr (byte_or z 0x80) 1 &&& 0x02 = 0) &&
  decide (byte_clr (byte_or z 0x80) 1 &&& 0x10 = 0) &&
  decide (byte_clr (byte_clr (byte_or z 0x80) 1) 7 &&& 0x02 = 0) &&
  decide (byte_clr (byte_clr (byte_or z 0x80) 1) 7 &&& 0x10 = 0) &&
  decide (byte_or (byte_clr (byte_clr (byte_or z 0x80) 1) 7) 0x80 &&& 0x02 = 0) &&
  decide (byte_or (byte_clr (byte_clr (byte_or z 0x80) 1) 7) 0x80 &&& 0x10 = 0) &&
  decide (byte_or (byte_or (byte_clr (byte_clr (byte_or z 0x80) 1) 7) 0x80) 0x10 &&& 0x02 = 0) &&
  decide (byte_or (byte_or (byte_clr (byte_clr (byte_or z 0x80) 1) 7) 0x80) 0x10 &&& 0x10 ≠ 0)

/-! ## Further vocabulary and concrete inputs -/

/-- First-error propagation of a routine that went from bus `b` to the result
`r`: it returns 0 exactly when every transaction it issued succeeded;
otherwise the failed transaction is the last one it issued, every transaction
before it succeeded, and the routine returns that transaction's negative
code. -/
def FirstError (b : Bus) (r : Int × Bus) : Prop :=
  (r.1 = 0 ↔ ∀ op ∈ issued b r.2, 0 ≤ op.res) ∧
  (r.1 ≠ 0 → ∃ pre last, issued b r.2 = pre ++ [last] ∧ (∀ op ∈ pre, 0 ≤ op.res) ∧
    last.res < 0 ∧ r.1 = last.res)

/-- The register a transaction addresses. -/
def BusOp.reg : BusOp → Nat
  | BusOp.read reg _ => reg
  | BusOp.write reg _ _ => reg
  | BusOp.block_read reg _ _ => reg

/-- Bus `b'` comes from bus `b` by transactions that all address register
`reg0`, and every other register holds what it held in `b`. -/
def OnReg (reg0 : Nat) (b b' : Bus) : Prop :=
  (∀ x, x ≠ reg0 → b'.regs x = b.regs x) ∧
  ∃ ops, b'.trace = b.trace ++ ops ∧ ∀ op ∈ ops, op.reg = reg0

/-- The register writes among a list of transactions, in order, each as the
pair of the register and the byte written. -/
def writes (t : List BusOp) : List (Nat × Nat) :=
  t.filterMap (fun op => match op with
    | BusOp.write reg v _ => some (reg, v)
    | _ => none)

/-- A fault-free bus with every register zero. -/
def zero_bus : Bus :=
  ⟨fun _ => 0, fun _ => none, []⟩

/-- A device record in progress on an AC source, with a callback registered. -/
def ac_progress_charger : smb349_charger :=
  { state := charging_states.progress, chrg_type := charger_type.AC,
    charger_cb := some 1, charger_cb_data := 7 }

/-- A bus that reports a dedicated charger and whose second transaction (the
first one of the enable-charging sequence) fails. -/
def ac_config_fail_bus : Bus :=
  ⟨fun x => if x = 0x3E then 0x04 else 0, fun n => if n = 1 then some 4 else none, []⟩

/-- A bus that reports no source and whose second transaction (the first one
of the disable-charging sequence) fails. -/
def stop_config_fail_bus : Bus :=
  ⟨fun _ => 0, fun n => if n = 1 then some 4 else none, []⟩

/-- A fault-free bus whose status byte is 0x01: non-zero, with neither source
bit set. -/
def unclassified_bus : Bus :=
  ⟨fun x => if x = 0x3E then 0x01 else 0, fun _ => none, []⟩

/-- The routine that took bus `b` to bus `b'` was started: it issued at least
its first transaction, the read of command register 0x30 that opens the
gate-enable step. -/
def Started (b b' : Bus) : Prop :=
  ∃ res rest, issued b b' = BusOp.read 0x30 res :: rest

/-- The bits `m` of command register 0x30 are the same in `b'` as in `b`. -/
def KeepsBits (m : Nat) (b b' : Bus) : Prop :=
  b'.regs 0x30 &&& m = b.regs 0x30 &&& m

/-- Register `x` holds the same in `b'` as in `b`. -/
def SameAt (x : Nat) (b b' : Bus) : Prop :=
  b'.regs x = b.regs x

/-- The part of `smb349_probe` after the presence check, from the call of
`register_otg_callback` on, run on the bus `bo` the presence query left. -/
def probe_after_presence (bo : Bus) (env : ProbeEnv) : ProbeResult :=
  if env.otg_callback_ret < 0 then
    { ret := env.otg_callback_ret, bus := bo, charger := some kzalloc_charger, freed := true,
      otg_registered := true, irq_requested := false }
  else if (smb349_configure_charger bo 1).1 < 0 then
    { ret := (smb349_configure_charger bo 1).1, bus := (smb349_configure_charger bo 1).2,
      charger := some kzalloc_charger, freed := false, otg_registered := true,
      irq_requested := false }
  else if (smb349_configure_interrupts (smb349_configure_charger bo 1).2).1 < 0 then
    { ret := (smb349_configure_interrupts (smb349_configure_charger bo 1).2).1,
      bus := (smb349_configure_interrupts (smb349_configure_charger bo 1).2).2,
      charger := some kzalloc_charger, freed := true, otg_registered := true,
      irq_requested := false }
  else if env.request_irq_ret ≠ 0 then
    { ret := env.request_irq_ret,
      bus := (smb349_configure_interrupts (smb349_configure_charger bo 1).2).2,
      charger := some kzalloc_charger, freed := true, otg_registered := true,
      irq_requested := true }
  else
    { ret := 0, bus := (smb349_configure_interrupts (smb349_configure_charger bo 1).2).2,
      charger := some kzalloc_charger, freed := false, otg_registered := true,
      irq_requested := true }

/-- A bus with every register zero whose first transaction, the presence
read, fails with `-EIO`. -/
def presence_fail_bus : Bus :=
  ⟨fun _ => 0, fun n => if n = 0 then some 4 else none, []⟩

/-- A bus with charging enabled on which the disable-charging step succeeds
and the second transaction of the following step fails. -/
def host_late_fail_bus : Bus :=
  ⟨fun x => if x = 0x30 then 0x02 else 0, fun n => if n = 7 then some 4 else none, []⟩

/-- A bus with OTG enabled on which the disable-OTG step succeeds and the
second transaction of the following step fails. -/
def suspend_late_fail_bus : Bus :=
  ⟨fun x => if x = 0x30 then 0x10 else 0, fun n => if n = 7 then some 4 else none, []⟩

/-- A bus with OTG enabled whose third transaction fails: the gate-enable
write of the first step succeeds and the step aborts right after it. -/
def otg_abort_bus : Bus :=
  ⟨fun x => if x = 0x30 then 0x10 else 0, fun n => if n = 2 then some 4 else none, []⟩

/-! ## Runs in which every transaction succeeds -/

theorem ofNat_not_neg (n : Nat) : ¬ (Int.ofNat n < 0) :=
  Int.not_lt.mpr (Int.ofNat_nonneg n)

theorem zero_not_neg : ¬ ((0 : Int) < 0) := by decide

section ok
variable (r : Nat → Nat) (f : Nat → Option Nat) (t : List BusOp) (h : ∀ n, f n = none)
include h

theorem smb349_read_ok (reg : Nat) :
    smb349_read ⟨r, f, t⟩ reg =
      (Int.ofNat (r reg % 256), ⟨r, f, t ++ [BusOp.read reg (Int.ofNat (r reg % 256))]⟩) := by
  simp only [smb349_read, i2c_smbus_read_byte_data, h]
  rfl

theorem smb349_write_ok (reg v : Nat) :
    smb349_write ⟨r, f, t⟩ reg v =
      (0, ⟨fun x => if x = reg then v % 256 else r x, f, t ++ [BusOp.write reg (v % 256) 0]⟩) := by
  simp only [smb349_write, i2c_smbus_write_byte_data, h]

theorem smb349_update_reg_ok (reg v : Nat) :
    smb349_update_reg ⟨r, f, t⟩ reg v = (0, ⟨regs_or r reg v, f, t ++ ops_or r reg v⟩) := by
  simp only [smb349_update_reg, smb349_read_ok r f t h, smb349_write_ok _ f _ h, ofNat_not_neg,
    zero_not_neg, if_false, or_bits, List.append_assoc, List.singleton_append]
  rfl

theorem volatile_enable_ok :
    smb349_volatile_writes ⟨r, f, t⟩ SMB349_ENABLE_WRITE =
      (0, ⟨regs_or r 0x30 0x80, f, t ++ ops_or r 0x30 0x80⟩) := by
  simp only [smb349_volatile_writes, smb349_update_reg_ok r f t h, if_true, ite_self]

theorem volatile_disable_ok :
    smb349_volatile_writes ⟨r, f, t⟩ SMB349_DISABLE_WRITE =
      (0, ⟨regs_clr r 0x30 7, f, t ++ ops_clr r 0x30 7⟩) := by
  simp only [smb349_volatile_writes, smb349_read_ok r f t h, smb349_write_ok _ f _ h, ofNat_not_neg,
    zero_not_neg, if_false, and_not_bit, List.append_assoc, List.singleton_append, ite_self,
    zero_ne_one]
  rfl

theorem configure_charger_on_ok (value : Int) (hv : value ≠ 0) :
    smb349_configure_charger ⟨r, f, t⟩ value =
      (0, ⟨regs_charger_on r, f, t ++ ops_charger_on r⟩) := by
  simp only [smb349_configure_charger, volatile_enable_ok r f t h, smb349_update_reg_ok _ f _ h,
    volatile_disable_ok _ f _ h, zero_not_neg, if_false, hv, ne_eq, not_false_eq_true, if_true,
    List.append_assoc, regs_charger_on, ops_charger_on]

theorem configure_charger_off_ok :
    smb349_configure_charger ⟨r, f, t⟩ 0 =
      (0, ⟨regs_charger_off r, f, t ++ ops_charger_off r⟩) := by
  simp only [smb349_configure_charger, volatile_enable_ok r f t h, smb349_read_ok _ f _ h,
    smb349_write_ok _ f _ h, volatile_disable_ok _ f _ h, zero_not_neg, ofNat_not_neg,
    if_false, ne_eq, not_true_eq_false, List.append_assoc, regs_charger_off, ops_charger_off]
  rfl

theorem configure_otg_on_ok (enable : Int) (hv : enable ≠ 0) :
    smb349_configure_otg ⟨r, f, t⟩ enable = (0, ⟨regs_otg_on r, f, t ++ ops_otg_on r⟩) := by
  simp only [smb349_configure_otg, volatile_enable_ok r f t h, smb349_update_reg_ok _ f _ h,
    volatile_disable_ok _ f _ h, zero_not_neg, if_false, hv, ne_eq, not_false_eq_true, if_true,
    List.append_assoc, regs_otg_on, ops_otg_on]

theorem configure_otg_off_ok :
    smb349_configure_otg ⟨r, f, t⟩ 0 = (0, ⟨regs_otg_off r, f, t ++ ops_otg_off r⟩) := by
  simp only [smb349_configure_otg, volatile_enable_ok r f t h, smb349_read_ok _ f _ h,
    smb349_write_ok _ f _ h, volatile_disable_ok _ f _ h, zero_not_neg, ofNat_not_neg,
    if_false, ne_eq, not_true_eq_false, List.append_assoc, regs_otg_off, ops_otg_off]
  rfl

theorem configure_interrupts_ok :
    smb349_configure_interrupts ⟨r, f, t⟩ =
      (0, ⟨regs_interrupts r, f, t ++ ops_interrupts r⟩) := by
  simp only [smb349_configure_interrupts, volatile_enable_ok r f t h,
    smb349_update_reg_ok _ f _ h, volatile_disable_ok _ f _ h, zero_not_neg, if_false,
    List.append_assoc, regs_interrupts, ops_interrupts]

theorem clear_interrupts_ok :
    smb349_clear_interrupts ⟨r, f, t⟩ = ⟨r, f, t ++ [BusOp.block_read 0x35 6 6]⟩ := by
  simp only [smb349_clear_interrupts, i2c_smbus_read_i2c_block_data, h]
  rfl

end ok

theorem ofNat_ne_zero (n : Nat) (hn : n ≠ 0) : Int.ofNat n ≠ 0 := by
  intro h0
  exact hn (Int.ofNat.inj h0)

section ok_handler
variable (r : Nat → Nat) (f : Nat → Option Nat) (t : List BusOp) (h : ∀ n, f n = none)
include h

theorem status_isr_start_ok (c : smb349_charger) (hs : r 0x3E % 256 ≠ 0) :
    smb349_status_isr ⟨r, f, t⟩ c =
      ⟨⟨regs_charger_on r, f,
          t ++ (BusOp.read 0x3E (Int.ofNat (r 0x3E % 256)) :: (ops_charger_on r ++
            [BusOp.block_read 0x35 6 6]))⟩,
        { classify_charger c (Int.ofNat (r 0x3E % 256)) with state := charging_states.progress },
        invoke_charger_cb
          { classify_charger c (Int.ofNat (r 0x3E % 256)) with
              state := charging_states.progress }⟩ := by
  simp only [smb349_status_isr, smb349_read_ok r f t h, ofNat_not_neg, if_false,
    ofNat_ne_zero _ hs, ne_eq, not_false_eq_true, if_true, configure_charger_on_ok _ f _ h 1
    one_ne_zero, zero_not_neg, irq_error, clear_interrupts_ok _ f _ h, List.append_assoc,
    List.singleton_append]
  rfl

theorem status_isr_stop_ok (c : smb349_charger) (hs : r 0x3E % 256 = 0) :
    smb349_status_isr ⟨r, f, t⟩ c =
      ⟨⟨regs_interrupts (regs_charger_off r), f,
          t ++ (BusOp.read 0x3E 0 :: (ops_charger_off r ++
            (ops_interrupts (regs_charger_off r) ++ [BusOp.block_read 0x35 6 6])))⟩,
        { c with state := charging_states.stopped },
        invoke_charger_cb { c with state := charging_states.stopped }⟩ := by
  simp only [smb349_status_isr, smb349_read_ok r f t h, hs, ofNat_not_neg, if_false,
    ne_eq, not_true_eq_false, configure_charger_off_ok _ f _ h, configure_interrupts_ok _ f _ h,
    zero_not_neg, irq_error, clear_interrupts_ok _ f _ h, List.append_assoc,
    List.singleton_append]
  rfl

theorem otg_status_host_ok :
    smb349_otg_status ⟨r, f, t⟩ usb_otg_state.OTG_STATE_A_HOST =
      ⟨regs_otg_on (regs_charger_off r), f,
        t ++ (ops_charger_off r ++ ops_otg_on (regs_charger_off r))⟩ := by
  simp only [smb349_otg_status, if_true, configure_charger_off_ok r f t h,
    configure_otg_on_ok _ f _ h 1 one_ne_zero, List.append_assoc]

theorem otg_status_suspend_ok :
    smb349_otg_status ⟨r, f, t⟩ usb_otg_state.OTG_STATE_A_SUSPEND =
      ⟨regs_interrupts (regs_charger_on (regs_otg_off r)), f,
        t ++ (ops_otg_off r ++ (ops_charger_on (regs_otg_off r) ++
          ops_interrupts (regs_charger_on (regs_otg_off r))))⟩ := by
  simp only [smb349_otg_status, configure_otg_off_ok r f t h,
    configure_charger_on_ok _ f _ h 1 one_ne_zero, configure_interrupts_ok _ f _ h,
    List.append_assoc, reduceCtorEq, if_false, if_true]

end ok_handler

/-! ## Byte arithmetic of the command, thermal and interrupt registers -/

theorem mod_and_mask (y m : Nat) (hm : 255 &&& m = m) : y % 256 &&& m = y &&& m := by
  rw [show (256 : Nat) = 2 ^ 8 from rfl, ← Nat.and_pow_two_sub_one_eq_mod, Nat.and_assoc]
  rw [show (2 ^ 8 - 1 : Nat) = 255 from rfl, hm]

theorem byte_or_mod (y v : Nat) : byte_or y v = byte_or (y % 256) v := by
  simp only [byte_or, Nat.mod_mod]

theorem byte_clr_mod (y bit : Nat) : byte_clr y bit = byte_clr (y % 256) bit := by
  simp only [byte_clr, Nat.mod_mod]

/-! ## Runs under an arbitrary pattern of failures -/

theorem ByteSeq.bind {b : Bus} {r1 r2 : Int × Bus} (h1 : ByteSeq b r1)
    (h2 : 0 ≤ r1.1 → ByteSeq r1.2 r2) : ByteSeq b (if r1.1 < 0 then r1 else r2) := by
  by_cases hneg : r1.1 < 0
  · rw [if_pos hneg]
    exact h1
  · rw [if_neg hneg]
    obtain ⟨hf2, ops2, ht2, hb2, hr2⟩ := h2 (Int.not_lt.mp hneg)
    obtain ⟨hf1, ops1, ht1, hb1, hr1⟩ := h1
    refine ⟨hf2.trans hf1, ops1 ++ ops2, ?_, ?_, ?_⟩
    · rw [ht2, ht1, List.append_assoc]
    · intro op hop
      rcases List.mem_append.mp hop with hm | hm
      · exact hb1 op hm
      · exact hb2 op hm
    · have hok1 : ∀ op ∈ ops1, 0 ≤ op.res := by
        rcases hr1 with ⟨_, hall⟩ | ⟨hlt, _⟩
        · exact hall
        · exact absurd hlt hneg
      rcases hr2 with ⟨h0, hall⟩ | ⟨hlt, pre, last, hops, hpre, hlast⟩
      · left
        refine ⟨h0, ?_⟩
        intro op hop
        rcases List.mem_append.mp hop with hm | hm
        · exact hok1 op hm
        · exact hall op hm
      · right
        refine ⟨hlt, ops1 ++ pre, last, ?_, ?_, hlast⟩
        · rw [hops, List.append_assoc]
        · intro op hop
          rcases List.mem_append.mp hop with hm | hm
          · exact hok1 op hm
          · exact hpre op hm

theorem smb349_read_seq (b : Bus) (reg : Nat) : ByteSeq b (smb349_read b reg) := by
  unfold smb349_read i2c_smbus_read_byte_data
  cases hf : b.fault b.trace.length with
  | none =>
    refine ⟨rfl, [BusOp.read reg (Int.ofNat (b.regs reg % 256))], rfl, ?_, Or.inl ⟨?_, ?_⟩⟩
    · intro op hop
      rw [List.mem_singleton.mp hop]
      rfl
    · exact Int.ofNat_nonneg _
    · intro op hop
      rw [List.mem_singleton.mp hop]
      exact Int.ofNat_nonneg _
  | some k =>
    refine ⟨rfl, [BusOp.read reg (Int.negSucc k)], rfl, ?_, Or.inr ⟨?_, [], _, rfl, ?_, rfl⟩⟩
    · intro op hop
      rw [List.mem_singleton.mp hop]
      rfl
    · exact Int.negSucc_lt_zero k
    · intro op hop
      cases hop

theorem smb349_write_seq (b : Bus) (reg v : Nat) : ByteSeq b (smb349_write b reg v) := by
  unfold smb349_write i2c_smbus_write_byte_data
  cases hf : b.fault b.trace.length with
  | none =>
    refine ⟨rfl, [BusOp.write reg (v % 256) 0], rfl, ?_, Or.inl ⟨?_, ?_⟩⟩
    · intro op hop
      rw [List.mem_singleton.mp hop]
      rfl
    · exact le_refl _
    · intro op hop
      rw [List.mem_singleton.mp hop]
      exact le_refl _
  | some k =>
    refine ⟨rfl, [BusOp.write reg (v % 256) (Int.negSucc k)], rfl, ?_,
      Or.inr ⟨?_, [], _, rfl, ?_, rfl⟩⟩
    · intro op hop
      rw [List.mem_singleton.mp hop]
      rfl
    · exact Int.negSucc_lt_zero k
    · intro op hop
      cases hop

theorem smb349_update_reg_seq (b : Bus) (reg v : Nat) :
    ByteSeq b (smb349_update_reg b reg v) := by
  unfold smb349_update_reg
  simp only [ite_self]
  exact ByteSeq.bind (smb349_read_seq b reg) (fun _ => smb349_write_seq _ reg _)

theorem smb349_volatile_writes_seq (b : Bus) (value : Nat) :
    ByteSeq b (smb349_volatile_writes b value) := by
  unfold smb349_volatile_writes
  by_cases hv : value = SMB349_ENABLE_WRITE
  · simp only [if_pos hv, ite_self]
    exact smb349_update_reg_seq b _ _
  · simp only [if_neg hv, ite_self]
    exact ByteSeq.bind (smb349_read_seq b _) (fun _ => smb349_write_seq _ _ _)

theorem smb349_configure_charger_seq (b : Bus) (value : Int) :
    ByteSeq b (smb349_configure_charger b value) := by
  unfold smb349_configure_charger
  by_cases hv : value ≠ 0
  · simp only [if_pos hv]
    exact ByteSeq.bind (smb349_volatile_writes_seq b _) (fun _ =>
      ByteSeq.bind (smb349_update_reg_seq _ _ _) (fun _ =>
        ByteSeq.bind (smb349_update_reg_seq _ _ _) (fun _ => smb349_volatile_writes_seq _ _)))
  · simp only [if_neg hv]
    exact ByteSeq.bind (smb349_volatile_writes_seq b _) (fun _ =>
      ByteSeq.bind (smb349_read_seq _ _) (fun _ =>
        ByteSeq.bind (smb349_write_seq _ _ _) (fun _ => smb349_volatile_writes_seq _ _)))

theorem smb349_configure_otg_seq (b : Bus) (enable : Int) :
    ByteSeq b (smb349_configure_otg b enable) := by
  unfold smb349_configure_otg
  by_cases hv : enable ≠ 0
  · simp only [if_pos hv]
    exact ByteSeq.bind (smb349_volatile_writes_seq b _) (fun _ =>
      ByteSeq.bind (smb349_update_reg_seq _ _ _) (fun _ => smb349_volatile_writes_seq _ _))
  · simp only [if_neg hv]
    exact ByteSeq.bind (smb349_volatile_writes_seq b _) (fun _ =>
      ByteSeq.bind (smb349_read_seq _ _) (fun _ =>
        ByteSeq.bind (smb349_write_seq _ _ _) (fun _ => smb349_volatile_writes_seq _ _)))

theorem smb349_configure_interrupts_seq (b : Bus) :
    ByteSeq b (smb349_configure_interrupts b) := by
  unfold smb349_configure_interrupts
  exact ByteSeq.bind (smb349_volatile_writes_seq b _) (fun _ =>
    ByteSeq.bind (smb349_update_reg_seq _ _ _) (fun _ =>
      ByteSeq.bind (smb349_update_reg_seq _ _ _) (fun _ => smb349_volatile_writes_seq _ _)))

theorem isr_seq_seq (b : Bus) : ByteSeq b (isr_seq b) := by
  unfold isr_seq
  by_cases h0 : (smb349_read b SMB349_STS_REG_D).1 ≠ 0
  · simp only [if_pos h0]
    exact ByteSeq.bind (smb349_read_seq b _) (fun _ => smb349_configure_charger_seq _ _)
  · simp only [if_neg h0]
    exact ByteSeq.bind (smb349_read_seq b _) (fun _ =>
      ByteSeq.bind (smb349_configure_charger_seq _ _) (fun _ =>
        smb349_configure_interrupts_seq _))

theorem status_isr_eq (b : Bus) (c : smb349_charger) :
    smb349_status_isr b c =
      irq_error (isr_seq b).2 (isr_charger b c)
        (if (isr_seq b).1 < 0 then [] else invoke_charger_cb (isr_charger b c)) := by
  unfold smb349_status_isr isr_seq isr_charger
  by_cases h1 : (smb349_read b SMB349_STS_REG_D).1 < 0
  · simp only [if_pos h1]
  · by_cases h2 : (smb349_read b SMB349_STS_REG_D).1 ≠ 0
    · by_cases h3 : (smb349_configure_charger (smb349_read b SMB349_STS_REG_D).2 1).1 < 0
      · simp only [if_neg h1, if_pos h2, if_pos h3]
      · simp only [if_neg h1, if_pos h2, if_neg h3]
    · by_cases h3 : (smb349_configure_charger (smb349_read b SMB349_STS_REG_D).2 0).1 < 0
      · simp only [if_neg h1, if_neg h2, if_pos h3]
      · by_cases h4 : (smb349_configure_interrupts
            (smb349_configure_charger (smb349_read b SMB349_STS_REG_D).2 0).2).1 < 0
        · simp only [if_neg h1, if_neg h2, if_neg h3, if_pos h4]
        · simp only [if_neg h1, if_neg h2, if_neg h3, if_neg h4]

theorem irq_error_trace (b : Bus) (c : smb349_charger) (l : List CbCall) :
    ∃ res, (irq_error b c l).bus.trace = b.trace ++ [BusOp.block_read 0x35 6 res] := by
  unfold irq_error smb349_clear_interrupts i2c_smbus_read_i2c_block_data
  cases b.fault b.trace.length with
  | none => exact ⟨_, rfl⟩
  | some k => exact ⟨_, rfl⟩

/-! ## Gate balance of the configuration sequences -/

/-- C1 (the code at the failing input): when the transaction right after a
successful gate-enable step fails, each of the four configuration sequences
returns the error at once: it issues no further transaction, so the
gate-disable step never runs, and the command register keeps the gate bit
0x80 set. -/
theorem gate_left_open_on_error :
    (smb349_configure_charger gate_open_bus 1).1 = -5 ∧
    issued gate_open_bus (smb349_configure_charger gate_open_bus 1).2 =
      [BusOp.read 0x30 0, BusOp.write 0x30 0x80 0, BusOp.read 0x30 (-5)] ∧
    (smb349_configure_charger gate_open_bus 1).2.regs 0x30 &&& 0x80 ≠ 0 ∧
    (smb349_configure_charger gate_open_bus 0).1 = -5 ∧
    issued gate_open_bus (smb349_configure_charger gate_open_bus 0).2 =
      [BusOp.read 0x30 0, BusOp.write 0x30 0x80 0, BusOp.read 0x30 (-5)] ∧
    (smb349_configure_charger gate_open_bus 0).2.regs 0x30 &&& 0x80 ≠ 0 ∧
    (smb349_configure_otg gate_open_bus 1).1 = -5 ∧
    issued gate_open_bus (smb349_configure_otg gate_open_bus 1).2 =
      [BusOp.read 0x30 0, BusOp.write 0x30 0x80 0, BusOp.read 0x30 (-5)] ∧
    (smb349_configure_otg gate_open_bus 1).2.regs 0x30 &&& 0x80 ≠ 0 ∧
    (smb349_configure_otg gate_open_bus 0).1 = -5 ∧
    issued gate_open_bus (smb349_configure_otg gate_open_bus 0).2 =
      [BusOp.read 0x30 0, BusOp.write 0x30 0x80 0, BusOp.read 0x30 (-5)] ∧
    (smb349_configure_otg gate_open_bus 0).2.regs 0x30 &&& 0x80 ≠ 0 := by
  decide

/-! ## Callback invocation by the handler -/

theorem isr_charger_cb (b : Bus) (c : smb349_charger) :
    (isr_charger b c).charger_cb = c.charger_cb ∧
    (isr_charger b c).charger_cb_data = c.charger_cb_data := by
  unfold isr_charger classify_charger
  split_ifs <;> exact ⟨rfl, rfl⟩

theorem status_isr_issued (b : Bus) (c : smb349_charger) :
    ∃ ops res, issued b (smb349_status_isr b c).bus = ops ++ [BusOp.block_read 0x35 6 res] ∧
      (isr_seq b).2.trace = b.trace ++ ops := by
  obtain ⟨_, ops, ht, _, _⟩ := isr_seq_seq b
  obtain ⟨res, hres⟩ := irq_error_trace (isr_seq b).2 (isr_charger b c)
    (if (isr_seq b).1 < 0 then [] else invoke_charger_cb (isr_charger b c))
  refine ⟨ops, res, ?_, ht⟩
  unfold issued
  rw [status_isr_eq, hres, ht, List.append_assoc, List.drop_left]

/-- C2 (counterexample): with a callback registered and the status read
failing, the run of the handler invokes the callback zero times. -/
theorem status_isr_callback_skipped :
    cb_charger.charger_cb = some 1 ∧
    (smb349_status_isr status_fail_bus cb_charger).calls = [] := by
  decide

/-- C2 (amended): in a run of the handler with a callback registered, if
every bus transaction before the interrupt-status clear succeeds, the callback
is invoked exactly once, with the state, charger type and callback data of the
device record as that run leaves it; if one of those transactions fails, the
callback is not invoked. -/
theorem status_isr_callback (b : Bus) (c : smb349_charger) (fn : Nat)
    (hcb : c.charger_cb = some fn) :
    ((∀ op ∈ (issued b (smb349_status_isr b c).bus).dropLast, 0 ≤ op.res) →
      (smb349_status_isr b c).calls =
        [⟨fn, (smb349_status_isr b c).charger.state, (smb349_status_isr b c).charger.chrg_type,
          (smb349_status_isr b c).charger.charger_cb_data⟩]) ∧
    ((∃ op ∈ (issued b (smb349_status_isr b c).bus).dropLast, op.res < 0) →
      (smb349_status_isr b c).calls = []) := by
  obtain ⟨ops, res, hiss, ht⟩ := status_isr_issued b c
  obtain ⟨_, ops', ht', _, hr⟩ := isr_seq_seq b
  have hops : ops' = ops := List.append_cancel_left (ht'.symm.trans ht)
  subst hops
  rw [hiss, List.dropLast_concat, status_isr_eq]
  have hcalls : ∀ l, (irq_error (isr_seq b).2 (isr_charger b c) l).calls = l := fun _ => rfl
  have hch : ∀ l, (irq_error (isr_seq b).2 (isr_charger b c) l).charger = isr_charger b c :=
    fun _ => rfl
  rw [hcalls, hch]
  constructor
  · intro hall
    have hnn : ¬ (isr_seq b).1 < 0 := by
      rcases hr with ⟨h0, _⟩ | ⟨hlt, pre, last, hops, _, hlast⟩
      · exact Int.not_lt.mpr h0
      · have hmem : last ∈ ops' := by
          rw [hops]
          exact List.mem_append_right _ (List.mem_singleton.mpr rfl)
        have := hall last hmem
        rw [hlast] at this
        exact absurd hlt (Int.not_lt.mpr this)
    rw [if_neg hnn]
    unfold invoke_charger_cb
    rw [(isr_charger_cb b c).1, hcb]
  · rintro ⟨op, hop, hneg⟩
    have hlt : (isr_seq b).1 < 0 := by
      rcases hr with ⟨_, hall⟩ | ⟨hlt, _⟩
      · exact absurd hneg (Int.not_lt.mpr (hall op hop))
      · exact hlt
    rw [if_pos hlt]

/-- C2 (witness): a fault-free run on a dedicated charger calls the callback
once with (progress, AC, 7); a run whose status read fails does not call it. -/
theorem status_isr_callback_witness :
    (smb349_status_isr ac_bus cb_charger).calls =
      [⟨1, charging_states.progress, charger_type.AC, 7⟩] ∧
    (smb349_status_isr status_fail_bus cb_charger).calls = [] :=
  ⟨(status_isr_callback ac_bus cb_charger 1 rfl).1 (by decide),
   (status_isr_callback status_fail_bus cb_charger 1 rfl).2 (by decide)⟩

/-! ## Mutual exclusion of OTG and charging -/

set_option maxRecDepth 100000 in
theorem byte_host_final_aux : ∀ z, z < 256 →
    byte_clr (byte_or (byte_or (byte_clr (byte_clr (byte_or z 0x80) 1) 7) 0x80) 0x10) 7
        &&& 0x02 = 0 ∧
    byte_clr (byte_or (byte_or (byte_clr (byte_clr (byte_or z 0x80) 1) 7) 0x80) 0x10) 7
        &&& 0x10 ≠ 0 ∧
    byte_clr (byte_or (byte_or (byte_clr (byte_clr (byte_or z 0x80) 1) 7) 0x80) 0x10) 7
        &&& 0x80 = 0 := by
  decide

theorem regs_host_cmd (r : Nat → Nat) :
    regs_otg_on (regs_charger_off r) 0x30 &&& 0x02 = 0 ∧
    regs_otg_on (regs_charger_off r) 0x30 &&& 0x10 ≠ 0 ∧
    regs_otg_on (regs_charger_off r) 0x30 &&& 0x80 = 0 := by
  have e : regs_otg_on (regs_charger_off r) 0x30 =
      byte_clr (byte_or (byte_or (byte_clr (byte_clr (byte_or (r 0x30 % 256) 0x80) 1) 7) 0x80)
        0x10) 7 := by
    rw [← byte_or_mod]
    rfl
  rw [e]
  exact byte_host_final_aux _ (Nat.mod_lt _ (by norm_num))

set_option maxRecDepth 100000 in
theorem byte_suspend_final_aux : ∀ z, z < 256 →
    byte_clr (byte_or (byte_clr (byte_or (byte_or (byte_clr (byte_clr (byte_or z 0x80) 4) 7)
      0x80) 0x02) 7) 0x80) 7 &&& 0x10 = 0 ∧
    byte_clr (byte_or (byte_clr (byte_or (byte_or (byte_clr (byte_clr (byte_or z 0x80) 4) 7)
      0x80) 0x02) 7) 0x80) 7 &&& 0x02 ≠ 0 ∧
    byte_clr (byte_or (byte_clr (byte_or (byte_or (byte_clr (byte_clr (byte_or z 0x80) 4) 7)
      0x80) 0x02) 7) 0x80) 7 &&& 0x80 = 0 := by
  decide

theorem regs_suspend_cmd (r : Nat → Nat) :
    regs_interrupts (regs_charger_on (regs_otg_off r)) 0x30 &&& 0x10 = 0 ∧
    regs_interrupts (regs_charger_on (regs_otg_off r)) 0x30 &&& 0x02 ≠ 0 ∧
    regs_interrupts (regs_charger_on (regs_otg_off r)) 0x30 &&& 0x80 = 0 := by
  have e : regs_interrupts (regs_charger_on (regs_otg_off r)) 0x30 =
      byte_clr (byte_or (byte_clr (byte_or (byte_or (byte_clr (byte_clr
        (byte_or (r 0x30 % 256) 0x80) 4) 7) 0x80) 0x02) 7) 0x80) 7 := by
    rw [← byte_or_mod]
    rfl
  rw [e]
  exact byte_suspend_final_aux _ (Nat.mod_lt _ (by norm_num))

/-- C3 (counterexample): charging is enabled and the first bus transaction of
the host-role transition fails; the disable-charging step aborts, the
enable-OTG step succeeds, and the command register ends with both the OTG bit
0x10 and the enable-charging bit 0x02 set. -/
theorem otg_status_both_bits_set :
    (smb349_otg_status charging_fail_bus usb_otg_state.OTG_STATE_A_HOST).regs 0x30 &&& 0x10 ≠ 0 ∧
    (smb349_otg_status charging_fail_bus usb_otg_state.OTG_STATE_A_HOST).regs 0x30 &&& 0x02 ≠ 0 := by
  decide

/-! ## Charger-type classification -/

theorem smb349_read_first_ok (b : Bus) (reg : Nat) (hrd : b.fault b.trace.length = none) :
    (smb349_read b reg).1 = Int.ofNat (b.regs reg % 256) := by
  unfold smb349_read i2c_smbus_read_byte_data
  rw [hrd]
  rfl

theorem isr_charger_type (b : Bus) (c : smb349_charger)
    (hrd : b.fault b.trace.length = none) (hs : b.regs 0x3E % 256 ≠ 0) :
    (isr_charger b c).chrg_type =
      (classify_charger c (Int.ofNat (b.regs 0x3E % 256))).chrg_type := by
  unfold isr_charger
  rw [smb349_read_first_ok b _ hrd, if_neg (ofNat_not_neg _), if_pos (ofNat_ne_zero _ hs)]
  split_ifs <;> rfl

/-- C4: for every status byte successfully read from register 0x3E, for every
outcome of the later bus transactions: if the dedicated-charger bit 0x04 is
set, `chrg_type` is AC after the run (whether or not bit 0x08 is set); if bit
0x08 is set and bit 0x04 is clear, `chrg_type` is USB after the run. -/
theorem status_isr_classification (b : Bus) (c : smb349_charger)
    (hrd : b.fault b.trace.length = none) :
    (b.regs 0x3E % 256 &&& 0x04 ≠ 0 →
      (smb349_status_isr b c).charger.chrg_type = charger_type.AC) ∧
    (b.regs 0x3E % 256 &&& 0x08 ≠ 0 → b.regs 0x3E % 256 &&& 0x04 = 0 →
      (smb349_status_isr b c).charger.chrg_type = charger_type.USB) := by
  have hch : (smb349_status_isr b c).charger = isr_charger b c := by
    rw [status_isr_eq]
    rfl
  rw [hch]
  constructor
  · intro h4
    have hs : b.regs 0x3E % 256 ≠ 0 := by
      intro h0
      rw [h0] at h4
      exact h4 (Nat.zero_and _)
    rw [isr_charger_type b c hrd hs]
    unfold classify_charger test_bits
    have : (((Int.ofNat (b.regs 0x3E % 256)).toNat &&& DEDICATED_CHARGER) != 0) = true := by
      simpa using h4
    rw [if_pos this]
  · intro h8 h4
    have hs : b.regs 0x3E % 256 ≠ 0 := by
      intro h0
      rw [h0] at h8
      exact h8 (Nat.zero_and _)
    rw [isr_charger_type b c hrd hs]
    unfold classify_charger test_bits
    have hn : ¬ (((Int.ofNat (b.regs 0x3E % 256)).toNat &&& DEDICATED_CHARGER) != 0) = true := by
      simpa using h4
    have hp : (((Int.ofNat (b.regs 0x3E % 256)).toNat &&& CHRG_DOWNSTRM_PORT) != 0) = true := by
      simpa using h8
    rw [if_neg hn, if_pos hp]

/-- C4 (witness): status 0x0C (both bits) classifies as AC, status 0x08 as
USB. -/
theorem status_isr_classification_witness :
    (smb349_status_isr ac_usb_bus kzalloc_charger).charger.chrg_type = charger_type.AC ∧
    (smb349_status_isr usb_bus kzalloc_charger).charger.chrg_type = charger_type.USB :=
  ⟨(status_isr_classification ac_usb_bus kzalloc_charger rfl).1 (by decide),
   (status_isr_classification usb_bus kzalloc_charger rfl).2 (by decide) (by decide)⟩

/-! ## Start transition -/

set_option maxRecDepth 100000 in
theorem byte_charger_on_aux : ∀ z, z < 256 →
    byte_clr (byte_or (byte_or z 0x80) 0x02) 7 &&& 0x02 ≠ 0 ∧
    byte_clr (byte_or (byte_or z 0x80) 0x02) 7 &&& 0x80 = 0 := by
  decide

theorem regs_charger_on_cmd (r : Nat → Nat) :
    regs_charger_on r 0x30 &&& 0x02 ≠ 0 ∧ regs_charger_on r 0x30 &&& 0x80 = 0 := by
  have e : regs_charger_on r 0x30 = byte_clr (byte_or (byte_or (r 0x30 % 256) 0x80) 0x02) 7 := by
    rw [← byte_or_mod]
    rfl
  rw [e]
  exact byte_charger_on_aux _ (Nat.mod_lt _ (by norm_num))

set_option maxRecDepth 100000 in
theorem byte_therm_aux : ∀ z, z < 256 → byte_or z 0x10 &&& 0x10 ≠ 0 := by
  decide

theorem regs_charger_on_therm (r : Nat → Nat) : regs_charger_on r 0x07 &&& 0x10 ≠ 0 := by
  have e : regs_charger_on r 0x07 = byte_or (r 0x07 % 256) 0x10 := by
    rw [← byte_or_mod]
    rfl
  rw [e]
  exact byte_therm_aux _ (Nat.mod_lt _ (by norm_num))

/-- C5: for every non-zero status byte read from register 0x3E and every
initial register contents, when all bus transactions succeed, a run of the
handler ends with state = progress, command register 0x30 with bit 0x02 set
and bit 0x80 clear, and thermal register 0x07 with bit 0x10 set; status 0x04
gives charger type AC and status 0x08 gives USB. -/
theorem status_isr_start_transition (b : Bus) (c : smb349_charger) (hok : b.ok)
    (hs : b.regs 0x3E % 256 ≠ 0) :
    (smb349_status_isr b c).charger.state = charging_states.progress ∧
    (smb349_status_isr b c).bus.regs 0x30 &&& 0x02 ≠ 0 ∧
    (smb349_status_isr b c).bus.regs 0x30 &&& 0x80 = 0 ∧
    (smb349_status_isr b c).bus.regs 0x07 &&& 0x10 ≠ 0 ∧
    (b.regs 0x3E % 256 = 0x04 →
      (smb349_status_isr b c).charger.chrg_type = charger_type.AC) ∧
    (b.regs 0x3E % 256 = 0x08 →
      (smb349_status_isr b c).charger.chrg_type = charger_type.USB) := by
  obtain ⟨r, f, t⟩ := b
  rw [status_isr_start_ok r f t hok c hs]
  refine ⟨rfl, (regs_charger_on_cmd r).1, (regs_charger_on_cmd r).2, regs_charger_on_therm r,
    ?_, ?_⟩
  · intro h4
    show (classify_charger c (Int.ofNat (r 0x3E % 256))).chrg_type = charger_type.AC
    rw [h4]
    rfl
  · intro h8
    show (classify_charger c (Int.ofNat (r 0x3E % 256))).chrg_type = charger_type.USB
    rw [h8]
    rfl

/-- C5 (witness): fault-free runs on status 0x04 and on status 0x08. -/
theorem status_isr_start_transition_witness :
    ac_bus.ok ∧ ac_bus.regs 0x3E % 256 ≠ 0 ∧
    (smb349_status_isr ac_bus kzalloc_charger).charger.state = charging_states.progress ∧
    (smb349_status_isr ac_bus kzalloc_charger).bus.regs 0x30 &&& 0x02 ≠ 0 ∧
    (smb349_status_isr ac_bus kzalloc_charger).charger.chrg_type = charger_type.AC ∧
    (smb349_status_isr usb_bus kzalloc_charger).charger.chrg_type = charger_type.USB :=
  ⟨fun _ => rfl, by decide,
   (status_isr_start_transition ac_bus kzalloc_charger (fun _ => rfl) (by decide)).1,
   (status_isr_start_transition ac_bus kzalloc_charger (fun _ => rfl) (by decide)).2.1,
   (status_isr_start_transition ac_bus kzalloc_charger (fun _ => rfl) (by decide)).2.2.2.2.1 rfl,
   (status_isr_start_transition usb_bus kzalloc_charger (fun _ => rfl) (by decide)).2.2.2.2.2 rfl⟩

/-! ## Stop transition -/

set_option maxRecDepth 100000 in
theorem byte_stop_cmd_aux : ∀ z, z < 256 →
    byte_clr (byte_or (byte_clr (byte_clr (byte_or z 0x80) 1) 7) 0x80) 7 &&& 0x02 = 0 ∧
    byte_clr (byte_or (byte_clr (byte_clr (byte_or z 0x80) 1) 7) 0x80) 7 &&& 0x80 = 0 := by
  decide

set_option maxRecDepth 100000 in
theorem byte_or_ff_aux : ∀ z, z < 256 → byte_or z 0xff = 0xFF := by
  decide

theorem regs_stop (r : Nat → Nat) :
    regs_interrupts (regs_charger_off r) 0x30 &&& 0x02 = 0 ∧
    regs_interrupts (regs_charger_off r) 0x30 &&& 0x80 = 0 ∧
    regs_interrupts (regs_charger_off r) 0x0C = 0xFF ∧
    regs_interrupts (regs_charger_off r) 0x0D = 0xFF := by
  have e : regs_interrupts (regs_charger_off r) 0x30 =
      byte_clr (byte_or (byte_clr (byte_clr (byte_or (r 0x30 % 256) 0x80) 1) 7) 0x80) 7 := by
    rw [← byte_or_mod]
    rfl
  have ec : regs_interrupts (regs_charger_off r) 0x0C = byte_or (r 0x0C % 256) 0xff := by
    rw [← byte_or_mod]
    rfl
  have ed : regs_interrupts (regs_charger_off r) 0x0D = byte_or (r 0x0D % 256) 0xff := by
    rw [← byte_or_mod]
    rfl
  rw [e, ec, ed]
  exact ⟨(byte_stop_cmd_aux _ (Nat.mod_lt _ (by norm_num))).1,
    (byte_stop_cmd_aux _ (Nat.mod_lt _ (by norm_num))).2,
    byte_or_ff_aux _ (Nat.mod_lt _ (by norm_num)),
    byte_or_ff_aux _ (Nat.mod_lt _ (by norm_num))⟩

/-- C6: for every initial register contents, when the status byte read from
register 0x3E is 0x00 and all bus transactions succeed, a run of the handler
leaves state = stopped, command register 0x30 with bit 0x02 and bit 0x80
clear, and registers 0x0C and 0x0D both equal to 0xFF. -/
theorem status_isr_stop_transition (b : Bus) (c : smb349_charger) (hok : b.ok)
    (hs : b.regs 0x3E % 256 = 0) :
    (smb349_status_isr b c).charger.state = charging_states.stopped ∧
    (smb349_status_isr b c).bus.regs 0x30 &&& 0x02 = 0 ∧
    (smb349_status_isr b c).bus.regs 0x30 &&& 0x80 = 0 ∧
    (smb349_status_isr b c).bus.regs 0x0C = 0xFF ∧
    (smb349_status_isr b c).bus.regs 0x0D = 0xFF := by
  obtain ⟨r, f, t⟩ := b
  rw [status_isr_stop_ok r f t hok c hs]
  exact ⟨rfl, regs_stop r⟩

/-- C6 (witness): a fault-free run on status 0x00 with every other register
all ones. -/
theorem status_isr_stop_transition_witness :
    stop_bus.ok ∧ stop_bus.regs 0x3E % 256 = 0 ∧
    (smb349_status_isr stop_bus cb_charger).charger.state = charging_states.stopped ∧
    (smb349_status_isr stop_bus cb_charger).bus.regs 0x30 &&& 0x02 = 0 ∧
    (smb349_status_isr stop_bus cb_charger).bus.regs 0x30 &&& 0x80 = 0 ∧
    (smb349_status_isr stop_bus cb_charger).bus.regs 0x0C = 0xFF ∧
    (smb349_status_isr stop_bus cb_charger).bus.regs 0x0D = 0xFF :=
  ⟨fun _ => rfl, rfl, status_isr_stop_transition stop_bus cb_charger (fun _ => rfl) rfl⟩

/-! ## Host-role ordering -/

set_option maxRecDepth 100000 in
theorem host_bytes_ok_all : ∀ z, z < 256 →
    (z &&& 0x02 = 0 ∨ z &&& 0x10 ≠ 0) ∨ host_bytes_ok z = true := by
  decide

theorem byte_host_writes_aux (z : Nat) (hz : z < 256) (hc : z &&& 0x02 ≠ 0)
    (ho : z &&& 0x10 = 0) :
    byte_or z 0x80 &&& 0x02 ≠ 0 ∧ byte_or z 0x80 &&& 0x10 = 0 ∧
    byte_clr (byte_or z 0x80) 1 &&& 0x02 = 0 ∧ byte_clr (byte_or z 0x80) 1 &&& 0x10 = 0 ∧
    byte_clr (byte_clr (byte_or z 0x80) 1) 7 &&& 0x02 = 0 ∧
    byte_clr (byte_clr (byte_or z 0x80) 1) 7 &&& 0x10 = 0 ∧
    byte_or (byte_clr (byte_clr (byte_or z 0x80) 1) 7) 0x80 &&& 0x02 = 0 ∧
    byte_or (byte_clr (byte_clr (byte_or z 0x80) 1) 7) 0x80 &&& 0x10 = 0 ∧
    byte_or (byte_or (byte_clr (byte_clr (byte_or z 0x80) 1) 7) 0x80) 0x10 &&& 0x02 = 0 ∧
    byte_or (byte_or (byte_clr (byte_clr (byte_or z 0x80) 1) 7) 0x80) 0x10 &&& 0x10 ≠ 0 := by
  rcases host_bytes_ok_all z hz with (h | h) | h
  · exact absurd h hc
  · exact absurd ho h
  · simpa only [host_bytes_ok, Bool.and_eq_true, decide_eq_true_eq, and_assoc] using h

theorem host_writes (r : Nat → Nat) :
    writes_to 0x30 (ops_charger_off r ++ ops_otg_on (regs_charger_off r)) =
      [byte_or (r 0x30 % 256) 0x80,
       byte_clr (byte_or (r 0x30 % 256) 0x80) 1,
       byte_clr (byte_clr (byte_or (r 0x30 % 256) 0x80) 1) 7,
       byte_or (byte_clr (byte_clr (byte_or (r 0x30 % 256) 0x80) 1) 7) 0x80,
       byte_or (byte_or (byte_clr (byte_clr (byte_or (r 0x30 % 256) 0x80) 1) 7) 0x80) 0x10,
       byte_clr (byte_or (byte_or (byte_clr (byte_clr (byte_or (r 0x30 % 256) 0x80) 1) 7) 0x80)
         0x10) 7] := by
  rw [← byte_or_mod]
  rfl

/-- C7: when `smb349_otg_status` is called with `OTG_STATE_A_HOST` while
charging is enabled (bit 0x02 of register 0x30 set, bit 0x10 clear) and all
bus transactions succeed, the bytes written to register 0x30 split as
`pre ++ vc :: mid ++ vo :: post`, where `vc` is the first write with the
enable-charging bit clear and `vo`, later in the sequence, is the first write
with the OTG-enable bit set; no byte written to register 0x30 has both bits
set; and the final value of register 0x30 has bit 0x02 clear, bit 0x10 set and
bit 0x80 clear. -/
theorem otg_status_host_ordering (b : Bus) (hok : b.ok) (hc : b.regs 0x30 &&& 0x02 ≠ 0)
    (ho : b.regs 0x30 &&& 0x10 = 0) :
    (∃ pre vc mid vo post,
      writes_to 0x30 (issued b (smb349_otg_status b usb_otg_state.OTG_STATE_A_HOST)) =
        pre ++ vc :: (mid ++ vo :: post) ∧
      (∀ v ∈ pre, v &&& 0x02 ≠ 0) ∧ vc &&& 0x02 = 0 ∧
      (∀ v ∈ pre ++ vc :: mid, v &&& 0x10 = 0) ∧ vo &&& 0x10 ≠ 0) ∧
    (∀ v ∈ writes_to 0x30 (issued b (smb349_otg_status b usb_otg_state.OTG_STATE_A_HOST)),
      ¬ (v &&& 0x02 ≠ 0 ∧ v &&& 0x10 ≠ 0)) ∧
    (smb349_otg_status b usb_otg_state.OTG_STATE_A_HOST).regs 0x30 &&& 0x02 = 0 ∧
    (smb349_otg_status b usb_otg_state.OTG_STATE_A_HOST).regs 0x30 &&& 0x10 ≠ 0 ∧
    (smb349_otg_status b usb_otg_state.OTG_STATE_A_HOST).regs 0x30 &&& 0x80 = 0 := by
  obtain ⟨r, f, t⟩ := b
  have hc' : r 0x30 % 256 &&& 0x02 ≠ 0 := by
    rw [mod_and_mask _ _ (by decide)]
    exact hc
  have ho' : r 0x30 % 256 &&& 0x10 = 0 := by
    rw [mod_and_mask _ _ (by decide)]
    exact ho
  obtain ⟨h1c, h1o, h2c, h2o, h3c, h3o, h4c, h4o, h5c, h5o⟩ :=
    byte_host_writes_aux _ (Nat.mod_lt (r 0x30) (by norm_num)) hc' ho'
  have hfin := regs_host_cmd r
  have hiss : issued ⟨r, f, t⟩ (smb349_otg_status ⟨r, f, t⟩ usb_otg_state.OTG_STATE_A_HOST) =
      ops_charger_off r ++ ops_otg_on (regs_charger_off r) := by
    rw [otg_status_host_ok r f t hok]
    exact List.drop_left _ _
  rw [hiss, host_writes r, otg_status_host_ok r f t hok]
  refine ⟨⟨[_], _, [_, _], _, [_], rfl, ?_, h2c, ?_, h5o⟩, ?_, hfin⟩
  · intro v hv
    rw [List.mem_singleton.mp hv]
    exact h1c
  · intro v hv
    simp only [List.singleton_append, List.mem_cons, List.mem_singleton, List.not_mem_nil,
      or_false] at hv
    rcases hv with hv | hv | hv | hv <;> rw [hv] <;> assumption
  · intro v hv
    simp only [List.mem_cons, List.mem_singleton, List.not_mem_nil, or_false] at hv
    have h6c := hfin.1
    have e6 : regs_otg_on (regs_charger_off r) 0x30 =
        byte_clr (byte_or (byte_or (byte_clr (byte_clr (byte_or (r 0x30 % 256) 0x80) 1) 7) 0x80)
          0x10) 7 := by
      rw [← byte_or_mod]
      rfl
    rw [e6] at h6c
    rcases hv with hv | hv | hv | hv | hv | hv <;> rw [hv] <;> intro hboth
    · exact hboth.2 h1o
    · exact hboth.1 h2c
    · exact hboth.1 h3c
    · exact hboth.1 h4c
    · exact hboth.1 h5c
    · exact hboth.1 h6c

/-- C7 (witness): the host-role transition on a fault-free bus whose command
register holds 0x02 writes 0x82, 0x80, 0x00, 0x80, 0x90, 0x10 to it. -/
theorem otg_status_host_ordering_witness :
    charging_bus.ok ∧ charging_bus.regs 0x30 &&& 0x02 ≠ 0 ∧ charging_bus.regs 0x30 &&& 0x10 = 0 ∧
    writes_to 0x30 (issued charging_bus
      (smb349_otg_status charging_bus usb_otg_state.OTG_STATE_A_HOST)) =
        [0x82, 0x80, 0x00, 0x80, 0x90, 0x10] ∧
    (smb349_otg_status charging_bus usb_otg_state.OTG_STATE_A_HOST).regs 0x30 &&& 0x02 = 0 ∧
    (smb349_otg_status charging_bus usb_otg_state.OTG_STATE_A_HOST).regs 0x30 &&& 0x10 ≠ 0 ∧
    (smb349_otg_status charging_bus usb_otg_state.OTG_STATE_A_HOST).regs 0x30 &&& 0x80 = 0 :=
  ⟨fun _ => rfl, by decide, by decide, by decide,
   (otg_status_host_ordering charging_bus (fun _ => rfl) (by decide) (by decide)).2.2⟩

/-! ## Callback registration -/

/-- C8: `register_callback` called while the global device pointer is null
returns `-ENODEV` and leaves the pointer null, so no callback is installed and
no state changes; when a device exists it returns 0, stores exactly the given
`(cb, args)` pair and leaves the other fields of the device record as they
were. -/
theorem register_callback_contract (cb : Option Nat) (args : Nat) :
    register_callback none cb args = (-(ENODEV : Int), none) ∧
    ∀ c : smb349_charger,
      register_callback (some c) cb args =
        (0, some { state := c.state, chrg_type := c.chrg_type, charger_cb := cb,
                   charger_cb_data := args }) :=
  ⟨rfl, fun _ => rfl⟩

/-! ## Interrupt-status clear -/

/-- C9: for every run of the handler, for every status value and every
pattern of bus failures, the transactions the run issues are a list of byte
reads and writes followed by one six-byte block read starting at register
0x35: the interrupt-status clear is performed exactly once and is the last
bus transaction of the run. -/
theorem status_isr_clear_last (b : Bus) (c : smb349_charger) :
    ∃ ops res, issued b (smb349_status_isr b c).bus = ops ++ [BusOp.block_read 0x35 6 res] ∧
      ∀ op ∈ ops, op.is_block = false := by
  obtain ⟨ops, res, hiss, ht⟩ := status_isr_issued b c
  obtain ⟨_, ops', ht', hblk, _⟩ := isr_seq_seq b
  have hops : ops' = ops := List.append_cancel_left (ht'.symm.trans ht)
  subst hops
  exact ⟨ops', res, hiss, hblk⟩

/-! ## Attach without a battery -/

/-- C10 (the code at the failing input): with the battery-missing bit set and
every collaborator succeeding, `smb349_probe` jumps to `error:` before `ret`
is ever assigned and returns that unassigned value, whatever it is, so also
0, the success code; it has freed the device record, issued the presence read
only (no register write) and not requested the interrupt handler. -/
theorem probe_no_battery_returns_unassigned :
    (∀ v : Int, (smb349_probe no_battery_bus (attach_env v)).ret = v) ∧
    (smb349_probe no_battery_bus (attach_env 0)).ret = 0 ∧
    (smb349_probe no_battery_bus (attach_env 0)).freed = true ∧
    issued no_battery_bus (smb349_probe no_battery_bus (attach_env 0)).bus =
      [BusOp.read 0x36 0x10] ∧
    (smb349_probe no_battery_bus (attach_env 0)).otg_registered = false ∧
    (smb349_probe no_battery_bus (attach_env 0)).irq_requested = false :=
  ⟨fun _ => rfl, by decide⟩

/-! ## First-error propagation -/

theorem bind_nonpos {r1 r2 : Int × Bus} (h2 : r2.1 ≤ 0) :
    (if r1.1 < 0 then r1 else r2).1 ≤ 0 := by
  by_cases hneg : r1.1 < 0
  · rw [if_pos hneg]
    exact le_of_lt hneg
  · rw [if_neg hneg]
    exact h2

theorem smb349_write_nonpos (b : Bus) (reg v : Nat) : (smb349_write b reg v).1 ≤ 0 := by
  unfold smb349_write i2c_smbus_write_byte_data
  cases b.fault b.trace.length with
  | none => exact le_refl _
  | some k => exact le_of_lt (Int.negSucc_lt_zero k)

theorem smb349_update_reg_nonpos (b : Bus) (reg v : Nat) :
    (smb349_update_reg b reg v).1 ≤ 0 := by
  unfold smb349_update_reg
  simp only [ite_self]
  exact bind_nonpos (smb349_write_nonpos _ _ _)

theorem smb349_volatile_writes_nonpos (b : Bus) (value : Nat) :
    (smb349_volatile_writes b value).1 ≤ 0 := by
  unfold smb349_volatile_writes
  by_cases hv : value = SMB349_ENABLE_WRITE
  · simp only [if_pos hv, ite_self]
    exact smb349_update_reg_nonpos b _ _
  · simp only [if_neg hv, ite_self]
    exact bind_nonpos (smb349_write_nonpos _ _ _)

theorem smb349_configure_charger_nonpos (b : Bus) (value : Int) :
    (smb349_configure_charger b value).1 ≤ 0 := by
  unfold smb349_configure_charger
  by_cases hv : value ≠ 0
  · simp only [if_pos hv]
    exact bind_nonpos (bind_nonpos (bind_nonpos (smb349_volatile_writes_nonpos _ _)))
  · simp only [if_neg hv]
    exact bind_nonpos (bind_nonpos (bind_nonpos (smb349_volatile_writes_nonpos _ _)))

theorem smb349_configure_otg_nonpos (b : Bus) (enable : Int) :
    (smb349_configure_otg b enable).1 ≤ 0 := by
  unfold smb349_configure_otg
  by_cases hv : enable ≠ 0
  · simp only [if_pos hv]
    exact bind_nonpos (bind_nonpos (smb349_volatile_writes_nonpos _ _))
  · simp only [if_neg hv]
    exact bind_nonpos (bind_nonpos (bind_nonpos (smb349_volatile_writes_nonpos _ _)))

theorem smb349_configure_interrupts_nonpos (b : Bus) :
    (smb349_configure_interrupts b).1 ≤ 0 := by
  unfold smb349_configure_interrupts
  exact bind_nonpos (bind_nonpos (bind_nonpos (smb349_volatile_writes_nonpos _ _)))

theorem first_error_of_seq {b : Bus} {r : Int × Bus} (hseq : ByteSeq b r) (hz : r.1 ≤ 0) :
    FirstError b r := by
  obtain ⟨_, ops, ht, _, hr⟩ := hseq
  have hiss : issued b r.2 = ops := by
    unfold issued
    rw [ht]
    exact List.drop_left _ _
  unfold FirstError
  rw [hiss]
  rcases hr with ⟨h0, hall⟩ | ⟨hlt, pre, last, hops, hpre, hlast⟩
  · refine ⟨⟨fun _ => hall, fun _ => le_antisymm hz h0⟩, ?_⟩
    intro hne
    exact absurd (le_antisymm hz h0) hne
  · refine ⟨⟨?_, ?_⟩, ?_⟩
    · intro h0
      rw [h0] at hlt
      exact absurd hlt (lt_irrefl _)
    · intro hall
      have hmem : last ∈ ops := by
        rw [hops]
        exact List.mem_append_right _ (List.mem_singleton.mpr rfl)
      have := hall last hmem
      rw [hlast] at this
      exact absurd hlt (Int.not_lt.mpr this)
    · intro _
      exact ⟨pre, last, hops, hpre, by rw [hlast]; exact hlt, hlast.symm⟩

/-- C13: for every bus state, every argument and every pattern of bus
failures, each of `smb349_update_reg`, `smb349_volatile_writes`,
`smb349_configure_charger`, `smb349_configure_otg` and
`smb349_configure_interrupts` returns 0 if and only if every bus transaction
it issued succeeded; otherwise the failed transaction is the last one it
issued (nothing is issued after the first failure) and the routine returns
exactly that transaction's negative error code. -/
theorem first_error_propagation (b : Bus) (reg v value : Nat) (flag : Int) :
    FirstError b (smb349_update_reg b reg v) ∧
    FirstError b (smb349_volatile_writes b value) ∧
    FirstError b (smb349_configure_charger b flag) ∧
    FirstError b (smb349_configure_otg b flag) ∧
    FirstError b (smb349_configure_interrupts b) :=
  ⟨first_error_of_seq (smb349_update_reg_seq b reg v) (smb349_update_reg_nonpos b reg v),
   first_error_of_seq (smb349_volatile_writes_seq b value) (smb349_volatile_writes_nonpos b value),
   first_error_of_seq (smb349_configure_charger_seq b flag)
     (smb349_configure_charger_nonpos b flag),
   first_error_of_seq (smb349_configure_otg_seq b flag) (smb349_configure_otg_nonpos b flag),
   first_error_of_seq (smb349_configure_interrupts_seq b) (smb349_configure_interrupts_nonpos b)⟩

/-! ## Routines that touch the command register only -/

theorem bind_rel {R : Bus → Bus → Prop} (htrans : ∀ a b c, R a b → R b c → R a c)
    {b : Bus} {r1 r2 : Int × Bus} (h1 : R b r1.2) (h2 : 0 ≤ r1.1 → R r1.2 r2.2) :
    R b (if r1.1 < 0 then r1 else r2).2 := by
  by_cases hneg : r1.1 < 0
  · rw [if_pos hneg]
    exact h1
  · rw [if_neg hneg]
    exact htrans _ _ _ h1 (h2 (Int.not_lt.mp hneg))

theorem on_reg_trans (reg0 : Nat) (a b c : Bus) (hab : OnReg reg0 a b) (hbc : OnReg reg0 b c) :
    OnReg reg0 a c := by
  obtain ⟨hr1, ops1, ht1, ho1⟩ := hab
  obtain ⟨hr2, ops2, ht2, ho2⟩ := hbc
  refine ⟨fun x hx => (hr2 x hx).trans (hr1 x hx), ops1 ++ ops2, ?_, ?_⟩
  · rw [ht2, ht1, List.append_assoc]
  · intro op hop
    rcases List.mem_append.mp hop with hm | hm
    · exact ho1 op hm
    · exact ho2 op hm

theorem smb349_read_on_reg (b : Bus) (reg : Nat) : OnReg reg b (smb349_read b reg).2 := by
  unfold smb349_read i2c_smbus_read_byte_data
  cases b.fault b.trace.length with
  | none =>
    refine ⟨fun _ _ => rfl, [_], rfl, ?_⟩
    intro op hop
    rw [List.mem_singleton.mp hop]
    rfl
  | some k =>
    refine ⟨fun _ _ => rfl, [_], rfl, ?_⟩
    intro op hop
    rw [List.mem_singleton.mp hop]
    rfl

theorem smb349_write_on_reg (b : Bus) (reg v : Nat) : OnReg reg b (smb349_write b reg v).2 := by
  unfold smb349_write i2c_smbus_write_byte_data
  cases b.fault b.trace.length with
  | none =>
    refine ⟨fun x hx => if_neg hx, [_], rfl, ?_⟩
    intro op hop
    rw [List.mem_singleton.mp hop]
    rfl
  | some k =>
    refine ⟨fun _ _ => rfl, [_], rfl, ?_⟩
    intro op hop
    rw [List.mem_singleton.mp hop]
    rfl

theorem smb349_update_reg_on_reg (b : Bus) (reg v : Nat) :
    OnReg reg b (smb349_update_reg b reg v).2 := by
  unfold smb349_update_reg
  simp only [ite_self]
  exact bind_rel (on_reg_trans reg) (smb349_read_on_reg b reg) (fun _ => smb349_write_on_reg _ _ _)

theorem smb349_volatile_writes_on_reg (b : Bus) (value : Nat) :
    OnReg 0x30 b (smb349_volatile_writes b value).2 := by
  unfold smb349_volatile_writes
  by_cases hv : value = SMB349_ENABLE_WRITE
  · simp only [if_pos hv, ite_self]
    exact smb349_update_reg_on_reg b _ _
  · simp only [if_neg hv, ite_self]
    exact bind_rel (on_reg_trans 0x30) (smb349_read_on_reg b _)
      (fun _ => smb349_write_on_reg _ _ _)

theorem configure_charger_off_on_reg (b : Bus) :
    OnReg 0x30 b (smb349_configure_charger b 0).2 := by
  unfold smb349_configure_charger
  simp only [ne_eq, not_true_eq_false, if_false]
  exact bind_rel (on_reg_trans 0x30) (smb349_volatile_writes_on_reg b _) (fun _ =>
    bind_rel (on_reg_trans 0x30) (smb349_read_on_reg _ _) (fun _ =>
      bind_rel (on_reg_trans 0x30) (smb349_write_on_reg _ _ _) (fun _ =>
        smb349_volatile_writes_on_reg _ _)))

set_option maxRecDepth 100000 in
theorem byte_charger_off_aux : ∀ z, z < 256 →
    byte_clr (byte_clr (byte_or z 0x80) 1) 7 = z &&& 0x7D := by
  decide

theorem regs_charger_off_cmd (r : Nat → Nat) :
    regs_charger_off r 0x30 = r 0x30 % 256 &&& 0x7D := by
  have e : regs_charger_off r 0x30 = byte_clr (byte_clr (byte_or (r 0x30 % 256) 0x80) 1) 7 := by
    rw [← byte_or_mod]
    rfl
  rw [e]
  exact byte_charger_off_aux _ (Nat.mod_lt _ (by norm_num))

/-- C11: for every initial register contents and every pattern of bus
failures, every transaction `smb349_configure_charger` issues with value 0
addresses command register 0x30, so it writes neither thermal register 0x07
nor any other register, and every register other than 0x30 holds what it held
before; when all bus transactions succeed, register 0x30 ends as its initial
byte with exactly the enable-charging bit 0x02 and the gate bit 0x80 cleared
(the byte ANDed with 0x7D). -/
theorem configure_charger_off_frame (b : Bus) :
    (∀ op ∈ issued b (smb349_configure_charger b 0).2, op.reg = 0x30) ∧
    (∀ x, x ≠ 0x30 → (smb349_configure_charger b 0).2.regs x = b.regs x) ∧
    (b.ok → (smb349_configure_charger b 0).1 = 0 ∧
      (smb349_configure_charger b 0).2.regs 0x30 = b.regs 0x30 % 256 &&& 0x7D) := by
  obtain ⟨hregs, ops, ht, hops⟩ := configure_charger_off_on_reg b
  refine ⟨?_, hregs, ?_⟩
  · unfold issued
    rw [ht, List.drop_left]
    exact hops
  · intro hok
    obtain ⟨r, f, t⟩ := b
    rw [configure_charger_off_ok r f t hok]
    exact ⟨rfl, regs_charger_off_cmd r⟩

/-- C11 (witness): disabling charging on a fault-free bus whose command
register holds 0x02 returns 0 and leaves 0x00 in it. -/
theorem configure_charger_off_frame_witness :
    charging_bus.ok ∧ (smb349_configure_charger charging_bus 0).1 = 0 ∧
    (smb349_configure_charger charging_bus 0).2.regs 0x30 = 0 :=
  ⟨fun _ => rfl, ((configure_charger_off_frame charging_bus).2.2 (fun _ => rfl)).1,
   ((configure_charger_off_frame charging_bus).2.2 (fun _ => rfl)).2⟩

/-! ## Effect of enabling charging -/

set_option maxRecDepth 100000 in
theorem byte_charger_on_values : ∀ z, z < 256 →
    byte_or z 0x80 = z ||| 0x80 ∧ byte_or (byte_or z 0x80) 0x02 = z ||| 0x82 ∧
    byte_clr (byte_or (byte_or z 0x80) 0x02) 7 = (z ||| 0x02) &&& 0x7F ∧
    byte_or z 0x10 = z ||| 0x10 := by
  decide

theorem charger_on_writes (r : Nat → Nat) :
    writes (ops_charger_on r) =
      [(0x30, byte_or (r 0x30 % 256) 0x80),
       (0x30, byte_or (byte_or (r 0x30 % 256) 0x80) 0x02),
       (0x07, byte_or (r 0x07 % 256) 0x10),
       (0x30, byte_clr (byte_or (byte_or (r 0x30 % 256) 0x80) 0x02) 7)] := by
  rw [← byte_or_mod, ← byte_or_mod]
  rfl

theorem regs_charger_on_values (r : Nat → Nat) :
    regs_charger_on r 0x30 = byte_clr (byte_or (byte_or (r 0x30 % 256) 0x80) 0x02) 7 ∧
    regs_charger_on r 0x07 = byte_or (r 0x07 % 256) 0x10 := by
  rw [← byte_or_mod, ← byte_or_mod]
  exact ⟨rfl, rfl⟩

theorem regs_or_other (r : Nat → Nat) (reg v x : Nat) (hx : x ≠ reg) : regs_or r reg v x = r x := by
  unfold regs_or
  exact if_neg hx

theorem regs_clr_other (r : Nat → Nat) (reg bit x : Nat) (hx : x ≠ reg) :
    regs_clr r reg bit x = r x := by
  unfold regs_clr
  exact if_neg hx

theorem regs_charger_on_other (r : Nat → Nat) (x : Nat) (h30 : x ≠ 0x30) (h07 : x ≠ 0x07) :
    regs_charger_on r x = r x := by
  unfold regs_charger_on
  rw [regs_clr_other _ _ _ _ h30, regs_or_other _ _ _ _ h07, regs_or_other _ _ _ _ h30,
    regs_or_other _ _ _ _ h30]

/-- C12: for every initial register contents, when all bus transactions
succeed, `smb349_configure_charger` with a non-zero value returns 0; its
register writes are, in this order, the gate bit and then the enable-charging
bit to command register 0x30, the thermal bit to register 0x07, and the
gate-clearing write to register 0x30; it leaves register 0x30 equal to its
initial byte ORed with 0x02 with bit 0x80 cleared, register 0x07 equal to its
initial byte ORed with 0x10, and every other register unchanged. -/
theorem configure_charger_on_effect (b : Bus) (value : Int) (hok : b.ok) (hv : value ≠ 0) :
    (smb349_configure_charger b value).1 = 0 ∧
    writes (issued b (smb349_configure_charger b value).2) =
      [(0x30, b.regs 0x30 % 256 ||| 0x80), (0x30, b.regs 0x30 % 256 ||| 0x82),
       (0x07, b.regs 0x07 % 256 ||| 0x10), (0x30, (b.regs 0x30 % 256 ||| 0x02) &&& 0x7F)] ∧
    (smb349_configure_charger b value).2.regs 0x30 = (b.regs 0x30 % 256 ||| 0x02) &&& 0x7F ∧
    (smb349_configure_charger b value).2.regs 0x07 = b.regs 0x07 % 256 ||| 0x10 ∧
    (∀ x, x ≠ 0x30 → x ≠ 0x07 → (smb349_configure_charger b value).2.regs x = b.regs x) := by
  obtain ⟨r, f, t⟩ := b
  rw [configure_charger_on_ok r f t hok value hv]
  obtain ⟨h80, h82, hfin, _⟩ := byte_charger_on_values _ (Nat.mod_lt (r 0x30) (by norm_num))
  obtain ⟨_, _, _, hth⟩ := byte_charger_on_values _ (Nat.mod_lt (r 0x07) (by norm_num))
  have hiss : issued ⟨r, f, t⟩ ⟨regs_charger_on r, f, t ++ ops_charger_on r⟩ =
      ops_charger_on r := List.drop_left _ _
  refine ⟨rfl, ?_, ?_, ?_, ?_⟩
  · rw [hiss, charger_on_writes r, hfin, h82, h80, hth]
  · show regs_charger_on r 0x30 = _
    rw [(regs_charger_on_values r).1, hfin]
  · show regs_charger_on r 0x07 = _
    rw [(regs_charger_on_values r).2, hth]
  · intro x h30 h07
    exact regs_charger_on_other r x h30 h07

/-- C12 (witness): enabling charging on a fault-free all-zero chip writes
0x80, 0x82 to register 0x30, 0x10 to register 0x07 and 0x02 to register
0x30. -/
theorem configure_charger_on_effect_witness :
    zero_bus.ok ∧ (smb349_configure_charger zero_bus 1).1 = 0 ∧
    writes (issued zero_bus (smb349_configure_charger zero_bus 1).2) =
      [(0x30, 0x80), (0x30, 0x82), (0x07, 0x10), (0x30, 0x02)] :=
  ⟨fun _ => rfl, (configure_charger_on_effect zero_bus 1 (fun _ => rfl) one_ne_zero).1,
   (configure_charger_on_effect zero_bus 1 (fun _ => rfl) one_ne_zero).2.1⟩

/-! ## Effect of the OTG mode control -/

set_option maxRecDepth 100000 in
theorem byte_otg_values : ∀ z, z < 256 →
    byte_clr (byte_or (byte_or z 0x80) 0x10) 7 = (z ||| 0x10) &&& 0x7F ∧
    byte_clr (byte_clr (byte_or z 0x80) 4) 7 = z &&& 0x6F ∧
    ((z ||| 0x10) &&& 0x7F) &&& 0x02 = z &&& 0x02 ∧
    (z &&& 0x6F) &&& 0x02 = z &&& 0x02 := by
  decide

theorem regs_otg_values (r : Nat → Nat) :
    regs_otg_on r 0x30 = byte_clr (byte_or (byte_or (r 0x30 % 256) 0x80) 0x10) 7 ∧
    regs_otg_off r 0x30 = byte_clr (byte_clr (byte_or (r 0x30 % 256) 0x80) 4) 7 := by
  rw [← byte_or_mod]
  exact ⟨rfl, rfl⟩

theorem regs_otg_other (r : Nat → Nat) (x : Nat) (h30 : x ≠ 0x30) :
    regs_otg_on r x = r x ∧ regs_otg_off r x = r x := by
  unfold regs_otg_on regs_otg_off
  rw [regs_clr_other _ _ _ _ h30, regs_or_other _ _ _ _ h30, regs_or_other _ _ _ _ h30,
    regs_clr_other _ _ _ _ h30, regs_clr_other _ _ _ _ h30, regs_or_other _ _ _ _ h30]
  exact ⟨rfl, rfl⟩

/-- C15: for every initial register contents, when all bus transactions
succeed, `smb349_configure_otg` returns 0 and leaves register 0x30 equal to
its initial byte with bit 0x10 set (enable non-zero) or cleared (enable zero)
and the gate bit 0x80 clear, every other bit of register 0x30 and every other
register unchanged; in particular the enable-charging bit 0x02 is what it
was. -/
theorem configure_otg_effect (b : Bus) (enable : Int) (hok : b.ok) :
    (smb349_configure_otg b enable).1 = 0 ∧
    (enable ≠ 0 →
      (smb349_configure_otg b enable).2.regs 0x30 = (b.regs 0x30 % 256 ||| 0x10) &&& 0x7F) ∧
    (enable = 0 → (smb349_configure_otg b enable).2.regs 0x30 = b.regs 0x30 % 256 &&& 0x6F) ∧
    (∀ x, x ≠ 0x30 → (smb349_configure_otg b enable).2.regs x = b.regs x) ∧
    (smb349_configure_otg b enable).2.regs 0x30 &&& 0x02 = b.regs 0x30 &&& 0x02 := by
  obtain ⟨r, f, t⟩ := b
  obtain ⟨hon, hoff, hon2, hoff2⟩ := byte_otg_values _ (Nat.mod_lt (r 0x30) (by norm_num))
  have hm : r 0x30 % 256 &&& 0x02 = r 0x30 &&& 0x02 := mod_and_mask _ _ (by decide)
  by_cases hv : enable ≠ 0
  · rw [configure_otg_on_ok r f t hok enable hv]
    have hval : regs_otg_on r 0x30 = (r 0x30 % 256 ||| 0x10) &&& 0x7F := by
      rw [(regs_otg_values r).1, hon]
    refine ⟨rfl, fun _ => hval, fun h0 => absurd h0 hv, fun x hx => (regs_otg_other r x hx).1, ?_⟩
    show regs_otg_on r 0x30 &&& 0x02 = r 0x30 &&& 0x02
    rw [hval, hon2, hm]
  · have h0 : enable = 0 := not_not.mp hv
    rw [h0, configure_otg_off_ok r f t hok]
    have hval : regs_otg_off r 0x30 = r 0x30 % 256 &&& 0x6F := by
      rw [(regs_otg_values r).2, hoff]
    refine ⟨rfl, fun hne => absurd rfl hne, fun _ => hval,
      fun x hx => (regs_otg_other r x hx).2, ?_⟩
    show regs_otg_off r 0x30 &&& 0x02 = r 0x30 &&& 0x02
    rw [hval, hoff2, hm]

/-- C15 (witness): on a fault-free bus whose command register holds 0x02,
enabling OTG leaves 0x12 and disabling OTG leaves 0x02. -/
theorem configure_otg_effect_witness :
    charging_bus.ok ∧ (smb349_configure_otg charging_bus 1).1 = 0 ∧
    (smb349_configure_otg charging_bus 1).2.regs 0x30 = 0x12 ∧
    (smb349_configure_otg charging_bus 0).2.regs 0x30 = 0x02 :=
  ⟨fun _ => rfl, (configure_otg_effect charging_bus 1 (fun _ => rfl)).1,
   (configure_otg_effect charging_bus 1 (fun _ => rfl)).2.1 one_ne_zero,
   (configure_otg_effect charging_bus 0 (fun _ => rfl)).2.2.1 rfl⟩

/-! ## Failed status read -/

theorem smb349_read_fail (b : Bus) (reg k : Nat) (hrd : b.fault b.trace.length = some k) :
    smb349_read b reg =
      (Int.negSucc k, ⟨b.regs, b.fault, b.trace ++ [BusOp.read reg (Int.negSucc k)]⟩) := by
  unfold smb349_read i2c_smbus_read_byte_data
  rw [hrd]

theorem smb349_read_success (b : Bus) (reg : Nat) (hrd : b.fault b.trace.length = none) :
    smb349_read b reg =
      (Int.ofNat (b.regs reg % 256),
        ⟨b.regs, b.fault, b.trace ++ [BusOp.read reg (Int.ofNat (b.regs reg % 256))]⟩) := by
  unfold smb349_read i2c_smbus_read_byte_data
  rw [hrd]
  rfl

theorem clear_interrupts_regs (b : Bus) :
    (smb349_clear_interrupts b).regs = b.regs ∧
    ∃ res, (smb349_clear_interrupts b).trace = b.trace ++ [BusOp.block_read 0x35 6 res] := by
  unfold smb349_clear_interrupts i2c_smbus_read_i2c_block_data
  cases b.fault b.trace.length with
  | none => exact ⟨rfl, _, rfl⟩
  | some k => exact ⟨rfl, _, rfl⟩

/-- C14: if the read of status register 0x3E fails, the run of the handler
leaves the device record (state and `chrg_type` included) exactly as it was,
invokes no callback, and issues, after the failed read, the interrupt-status
clear as its only further bus transaction: no register is written and the
register file is unchanged. -/
theorem status_isr_read_failure (b : Bus) (c : smb349_charger) (k : Nat)
    (hrd : b.fault b.trace.length = some k) :
    (smb349_status_isr b c).charger = c ∧
    (smb349_status_isr b c).calls = [] ∧
    (smb349_status_isr b c).bus.regs = b.regs ∧
    ∃ res, issued b (smb349_status_isr b c).bus =
      [BusOp.read 0x3E (Int.negSucc k), BusOp.block_read 0x35 6 res] := by
  have hisr : smb349_status_isr b c =
      irq_error ⟨b.regs, b.fault, b.trace ++ [BusOp.read 0x3E (Int.negSucc k)]⟩ c [] := by
    unfold smb349_status_isr
    simp only [smb349_read_fail b _ k hrd, Int.negSucc_lt_zero, if_true]
  rw [hisr]
  obtain ⟨hregs, res, htr⟩ :=
    clear_interrupts_regs ⟨b.regs, b.fault, b.trace ++ [BusOp.read 0x3E (Int.negSucc k)]⟩
  refine ⟨rfl, rfl, hregs, res, ?_⟩
  unfold issued irq_error
  rw [htr, List.append_assoc, List.drop_left]
  rfl

/-- C14 (witness): a run whose status read fails with -5 leaves a device
record in progress on AC as it was and issues the failed read and the
interrupt-status clear only. -/
theorem status_isr_read_failure_witness :
    (smb349_status_isr status_fail_bus ac_progress_charger).charger = ac_progress_charger ∧
    (smb349_status_isr status_fail_bus ac_progress_charger).calls = [] ∧
    issued status_fail_bus (smb349_status_isr status_fail_bus ac_progress_charger).bus =
      [BusOp.read 0x3E (-5), BusOp.block_read 0x35 6 6] :=
  ⟨(status_isr_read_failure status_fail_bus ac_progress_charger 4 rfl).1,
   (status_isr_read_failure status_fail_bus ac_progress_charger 4 rfl).2.1, by decide⟩

/-! ## The stop transition keeps the charger type -/

theorem invoke_charger_cb_args (c : smb349_charger) :
    ∀ call ∈ invoke_charger_cb c,
      call.state = c.state ∧ call.chrg_type = c.chrg_type ∧ call.args = c.charger_cb_data := by
  intro call hcall
  unfold invoke_charger_cb at hcall
  cases hcb : c.charger_cb with
  | none =>
    rw [hcb] at hcall
    cases hcall
  | some fn =>
    rw [hcb] at hcall
    rw [List.mem_singleton.mp hcall]
    exact ⟨rfl, rfl, rfl⟩

theorem status_isr_charger (b : Bus) (c : smb349_charger) :
    (smb349_status_isr b c).charger = isr_charger b c ∧
    ∀ call ∈ (smb349_status_isr b c).calls,
      call.state = (isr_charger b c).state ∧ call.chrg_type = (isr_charger b c).chrg_type := by
  rw [status_isr_eq]
  refine ⟨rfl, ?_⟩
  intro call hcall
  have hcalls : (irq_error (isr_seq b).2 (isr_charger b c)
      (if (isr_seq b).1 < 0 then [] else invoke_charger_cb (isr_charger b c))).calls =
      (if (isr_seq b).1 < 0 then [] else invoke_charger_cb (isr_charger b c)) := rfl
  rw [hcalls] at hcall
  by_cases hneg : (isr_seq b).1 < 0
  · rw [if_pos hneg] at hcall
    cases hcall
  · rw [if_neg hneg] at hcall
    exact ⟨(invoke_charger_cb_args _ call hcall).1, (invoke_charger_cb_args _ call hcall).2.1⟩

theorem isr_charger_stop (b : Bus) (c : smb349_charger)
    (hrd : b.fault b.trace.length = none) (hs : b.regs 0x3E % 256 = 0) :
    isr_charger b c = { c with state := charging_states.stopped } := by
  unfold isr_charger
  rw [smb349_read_first_ok b _ hrd, hs, if_neg (ofNat_not_neg _)]
  exact if_neg (fun hne => hne rfl)

/-- C17: for every prior device record and every pattern of failures of the
later bus transactions, a run of the handler that reads status 0x00 sets
state to stopped and leaves `chrg_type` equal to its value before the run;
that value (a stale AC or USB included) is what the callback receives, with
state stopped, when the callback is invoked. -/
theorem status_isr_stop_keeps_type (b : Bus) (c : smb349_charger)
    (hrd : b.fault b.trace.length = none) (hs : b.regs 0x3E % 256 = 0) :
    (smb349_status_isr b c).charger.chrg_type = c.chrg_type ∧
    (smb349_status_isr b c).charger.state = charging_states.stopped ∧
    ∀ call ∈ (smb349_status_isr b c).calls,
      call.chrg_type = c.chrg_type ∧ call.state = charging_states.stopped := by
  obtain ⟨hch, hcalls⟩ := status_isr_charger b c
  rw [hch, isr_charger_stop b c hrd hs]
  refine ⟨rfl, rfl, ?_⟩
  intro call hcall
  have := hcalls call hcall
  rw [isr_charger_stop b c hrd hs] at this
  exact ⟨this.2, this.1⟩

/-- C17 (witness): a fault-free run on status 0x00 from a record in progress
on AC ends stopped with type AC and calls the callback with (stopped, AC). -/
theorem status_isr_stop_keeps_type_witness :
    (smb349_status_isr zero_bus ac_progress_charger).charger.chrg_type = charger_type.AC ∧
    (smb349_status_isr zero_bus ac_progress_charger).charger.state = charging_states.stopped ∧
    (smb349_status_isr zero_bus ac_progress_charger).calls =
      [⟨1, charging_states.stopped, charger_type.AC, 7⟩] :=
  ⟨(status_isr_stop_keeps_type zero_bus ac_progress_charger rfl rfl).1,
   (status_isr_stop_keeps_type zero_bus ac_progress_charger rfl rfl).2.1, by decide⟩

/-! ## Failure asymmetry of the state update -/

/-- C18 (counterexample): the device is already in progress, the status is
non-zero and the enable-charging sequence of the run fails; state is progress
after the run although that sequence did not return success. -/
theorem status_isr_progress_without_success :
    (smb349_status_isr ac_config_fail_bus ac_progress_charger).charger.state =
      charging_states.progress ∧
    (smb349_configure_charger (smb349_read ac_config_fail_bus 0x3E).2 1).1 < 0 := by
  decide

/-- C18 (amended): in a run of the handler with a non-zero status, if the
enable-charging sequence fails then state keeps its value from before the run
although `chrg_type` has been updated from the status bits; in a run with
status 0x00, state is set to stopped whatever the outcome of the
disable-charging sequence and of the interrupt configuration.  So, for a run
that started with a state other than progress, state = progress after the run
implies that the status read succeeded with a non-zero byte and that the
enable-charging sequence returned 0 in that run; whereas state = stopped does
not imply that the disable-charging sequence succeeded: there is a run that
starts in progress, ends stopped, and whose disable-charging sequence
failed. -/
theorem status_isr_failure_asymmetry (b : Bus) (c : smb349_charger) :
    (b.fault b.trace.length = none → b.regs 0x3E % 256 ≠ 0 →
      (smb349_configure_charger (smb349_read b 0x3E).2 1).1 < 0 →
      (smb349_status_isr b c).charger.state = c.state ∧
      (smb349_status_isr b c).charger.chrg_type =
        (classify_charger c (Int.ofNat (b.regs 0x3E % 256))).chrg_type) ∧
    (b.fault b.trace.length = none → b.regs 0x3E % 256 = 0 →
      (smb349_status_isr b c).charger.state = charging_states.stopped) ∧
    (c.state ≠ charging_states.progress →
      (smb349_status_isr b c).charger.state = charging_states.progress →
      b.fault b.trace.length = none ∧ b.regs 0x3E % 256 ≠ 0 ∧
      (smb349_configure_charger (smb349_read b 0x3E).2 1).1 = 0) ∧
    (∃ b0 c0, c0.state = charging_states.progress ∧
      (smb349_status_isr b0 c0).charger.state = charging_states.stopped ∧
      (smb349_configure_charger (smb349_read b0 0x3E).2 0).1 < 0) := by
  have hch := (status_isr_charger b c).1
  rw [hch]
  refine ⟨?_, ?_, ?_, ⟨stop_config_fail_bus, ac_progress_charger, by decide⟩⟩
  · intro hrd hs hfail
    unfold isr_charger
    rw [smb349_read_first_ok b _ hrd, if_neg (ofNat_not_neg _), if_pos (ofNat_ne_zero _ hs),
      if_pos hfail]
    unfold classify_charger
    split_ifs <;> exact ⟨rfl, rfl⟩
  · intro hrd hs
    rw [isr_charger_stop b c hrd hs]
  · intro hc hprog
    unfold isr_charger at hprog
    cases hf : b.fault b.trace.length with
    | some k =>
      rw [smb349_read_fail b _ k hf, if_pos (Int.negSucc_lt_zero k)] at hprog
      exact absurd hprog hc
    | none =>
      rw [smb349_read_first_ok b _ hf, if_neg (ofNat_not_neg _)] at hprog
      by_cases hs : b.regs 0x3E % 256 = 0
      · rw [hs] at hprog
        rw [if_neg (fun hne => hne rfl)] at hprog
        cases hprog
      · rw [if_pos (ofNat_ne_zero _ hs)] at hprog
        by_cases hfail : (smb349_configure_charger (smb349_read b 0x3E).2 1).1 < 0
        · rw [if_pos hfail] at hprog
          have hst : (classify_charger c (Int.ofNat (b.regs 0x3E % 256))).state = c.state := by
            unfold classify_charger
            split_ifs <;> rfl
          rw [hst] at hprog
          exact absurd hprog hc
        · exact ⟨rfl, hs, le_antisymm (smb349_configure_charger_nonpos _ _)
            (Int.not_lt.mp hfail)⟩

/-- C18 (witness): from a stopped record, a fault-free run on status 0x04
reaches progress (so its enable-charging sequence returned 0); a run on
status 0x04 whose enable-charging sequence fails leaves a stopped record
stopped with type AC. -/
theorem status_isr_failure_asymmetry_witness :
    (smb349_configure_charger (smb349_read ac_bus 0x3E).2 1).1 = 0 ∧
    (smb349_status_isr ac_config_fail_bus cb_charger).charger.state = charging_states.stopped ∧
    (smb349_status_isr ac_config_fail_bus cb_charger).charger.chrg_type = charger_type.AC ∧
    (smb349_status_isr zero_bus ac_progress_charger).charger.state = charging_states.stopped :=
  ⟨((status_isr_failure_asymmetry ac_bus cb_charger).2.2.1 (by decide) (by decide)).2.2,
   ((status_isr_failure_asymmetry ac_config_fail_bus cb_charger).1 rfl (by decide)
      (by decide)).1,
   ((status_isr_failure_asymmetry ac_config_fail_bus cb_charger).1 rfl (by decide)
      (by decide)).2,
   (status_isr_failure_asymmetry zero_bus ac_progress_charger).2.1 rfl rfl⟩

/-! ## Unclassified source -/

/-- C19: for every non-zero status byte with both the dedicated-charger bit
0x04 and the downstream-port bit 0x08 clear, a run of the handler with all bus
transactions succeeding sets state = progress and enables charging (register
0x30 with bit 0x02 set and bit 0x80 clear, register 0x07 with bit 0x10 set),
while `chrg_type` keeps the value it had before the run. -/
theorem status_isr_unclassified (b : Bus) (c : smb349_charger) (hok : b.ok)
    (hs : b.regs 0x3E % 256 ≠ 0) (h4 : b.regs 0x3E % 256 &&& 0x04 = 0)
    (h8 : b.regs 0x3E % 256 &&& 0x08 = 0) :
    (smb349_status_isr b c).charger.state = charging_states.progress ∧
    (smb349_status_isr b c).charger.chrg_type = c.chrg_type ∧
    (smb349_status_isr b c).bus.regs 0x30 &&& 0x02 ≠ 0 ∧
    (smb349_status_isr b c).bus.regs 0x30 &&& 0x80 = 0 ∧
    (smb349_status_isr b c).bus.regs 0x07 &&& 0x10 ≠ 0 := by
  obtain ⟨r, f, t⟩ := b
  rw [status_isr_start_ok r f t hok c hs]
  refine ⟨rfl, ?_, (regs_charger_on_cmd r).1, (regs_charger_on_cmd r).2, regs_charger_on_therm r⟩
  show (classify_charger c (Int.ofNat (r 0x3E % 256))).chrg_type = c.chrg_type
  unfold classify_charger test_bits
  have hn4 : ¬ (((Int.ofNat (r 0x3E % 256)).toNat &&& DEDICATED_CHARGER) != 0) = true := by
    simpa using h4
  have hn8 : ¬ (((Int.ofNat (r 0x3E % 256)).toNat &&& CHRG_DOWNSTRM_PORT) != 0) = true := by
    simpa using h8
  rw [if_neg hn4, if_neg hn8]

/-- C19 (witness): a fault-free run on status 0x01 from a fresh record ends in
progress with type NONE and charging enabled. -/
theorem status_isr_unclassified_witness :
    unclassified_bus.ok ∧ unclassified_bus.regs 0x3E % 256 ≠ 0 ∧
    (smb349_status_isr unclassified_bus kzalloc_charger).charger.state =
      charging_states.progress ∧
    (smb349_status_isr unclassified_bus kzalloc_charger).charger.chrg_type = charger_type.NONE ∧
    (smb349_status_isr unclassified_bus kzalloc_charger).bus.regs 0x30 &&& 0x02 ≠ 0 :=
  ⟨fun _ => rfl, by decide,
   (status_isr_unclassified unclassified_bus kzalloc_charger (fun _ => rfl) (by decide)
      (by decide) (by decide)).1,
   (status_isr_unclassified unclassified_bus kzalloc_charger (fun _ => rfl) (by decide)
      (by decide) (by decide)).2.1,
   (status_isr_unclassified unclassified_bus kzalloc_charger (fun _ => rfl) (by decide)
      (by decide) (by decide)).2.2.1⟩

/-! ## Best-effort coordinator -/

theorem issued_of_trace {b b' : Bus} {ops : List BusOp} (ht : b'.trace = b.trace ++ ops) :
    issued b b' = ops := by
  unfold issued
  rw [ht]
  exact List.drop_left _ _

theorem started_bind {b : Bus} {r1 r2 : Int × Bus} (h1 : Started b r1.2)
    (hx : ∃ ops, r1.2.trace = b.trace ++ ops) (h2 : 0 ≤ r1.1 → ByteSeq r1.2 r2) :
    Started b (if r1.1 < 0 then r1 else r2).2 ∧
    ∃ ops, (if r1.1 < 0 then r1 else r2).2.trace = b.trace ++ ops := by
  by_cases hneg : r1.1 < 0
  · rw [if_pos hneg]
    exact ⟨h1, hx⟩
  · rw [if_neg hneg]
    obtain ⟨_, ops2, ht2, _⟩ := h2 (Int.not_lt.mp hneg)
    obtain ⟨ops1, ht1⟩ := hx
    obtain ⟨res, rest, hiss⟩ := h1
    rw [issued_of_trace ht1] at hiss
    have ht : r2.2.trace = b.trace ++ (BusOp.read 0x30 res :: (rest ++ ops2)) := by
      rw [ht2, ht1, hiss, List.append_assoc]
      rfl
    exact ⟨⟨res, rest ++ ops2, issued_of_trace ht⟩, _, ht⟩

theorem smb349_read_started (b : Bus) :
    Started b (smb349_read b 0x30).2 ∧ ∃ ops, (smb349_read b 0x30).2.trace = b.trace ++ ops := by
  unfold smb349_read i2c_smbus_read_byte_data
  cases b.fault b.trace.length with
  | none => exact ⟨⟨_, [], issued_of_trace rfl⟩, _, rfl⟩
  | some k => exact ⟨⟨_, [], issued_of_trace rfl⟩, _, rfl⟩

theorem volatile_enable_started (b : Bus) :
    Started b (smb349_volatile_writes b SMB349_ENABLE_WRITE).2 ∧
    ∃ ops, (smb349_volatile_writes b SMB349_ENABLE_WRITE).2.trace = b.trace ++ ops := by
  unfold smb349_volatile_writes smb349_update_reg
  simp only [if_true, ite_self]
  exact started_bind (smb349_read_started b).1 (smb349_read_started b).2
    (fun _ => smb349_write_seq _ _ _)

theorem configure_charger_started (b : Bus) (value : Int) :
    Started b (smb349_configure_charger b value).2 := by
  unfold smb349_configure_charger
  by_cases hv : value ≠ 0
  · simp only [if_pos hv]
    exact (started_bind (volatile_enable_started b).1 (volatile_enable_started b).2 (fun _ =>
      ByteSeq.bind (smb349_update_reg_seq _ _ _) (fun _ =>
        ByteSeq.bind (smb349_update_reg_seq _ _ _) (fun _ =>
          smb349_volatile_writes_seq _ _)))).1
  · simp only [if_neg hv]
    exact (started_bind (volatile_enable_started b).1 (volatile_enable_started b).2 (fun _ =>
      ByteSeq.bind (smb349_read_seq _ _) (fun _ =>
        ByteSeq.bind (smb349_write_seq _ _ _) (fun _ => smb349_volatile_writes_seq _ _)))).1

theorem configure_otg_started (b : Bus) (enable : Int) :
    Started b (smb349_configure_otg b enable).2 := by
  unfold smb349_configure_otg
  by_cases hv : enable ≠ 0
  · simp only [if_pos hv]
    exact (started_bind (volatile_enable_started b).1 (volatile_enable_started b).2 (fun _ =>
      ByteSeq.bind (smb349_update_reg_seq _ _ _) (fun _ => smb349_volatile_writes_seq _ _))).1
  · simp only [if_neg hv]
    exact (started_bind (volatile_enable_started b).1 (volatile_enable_started b).2 (fun _ =>
      ByteSeq.bind (smb349_read_seq _ _) (fun _ =>
        ByteSeq.bind (smb349_write_seq _ _ _) (fun _ => smb349_volatile_writes_seq _ _)))).1

theorem configure_interrupts_started (b : Bus) :
    Started b (smb349_configure_interrupts b).2 := by
  unfold smb349_configure_interrupts
  exact (started_bind (volatile_enable_started b).1 (volatile_enable_started b).2 (fun _ =>
    ByteSeq.bind (smb349_update_reg_seq _ _ _) (fun _ =>
      ByteSeq.bind (smb349_update_reg_seq _ _ _) (fun _ => smb349_volatile_writes_seq _ _)))).1

theorem keeps_bits_trans (m : Nat) (a b c : Bus) (hab : KeepsBits m a b) (hbc : KeepsBits m b c) :
    KeepsBits m a c := by
  unfold KeepsBits at *
  rw [hbc, hab]

theorem same_at_trans (x : Nat) (a b c : Bus) (hab : SameAt x a b) (hbc : SameAt x b c) :
    SameAt x a c := by
  unfold SameAt at *
  rw [hbc, hab]

theorem smb349_read_regs (b : Bus) (reg : Nat) : (smb349_read b reg).2.regs = b.regs := by
  unfold smb349_read i2c_smbus_read_byte_data
  cases b.fault b.trace.length with
  | none => rfl
  | some k => rfl

theorem smb349_read_value (b : Bus) (reg : Nat) (h0 : 0 ≤ (smb349_read b reg).1) :
    (smb349_read b reg).1 = Int.ofNat (b.regs reg % 256) := by
  cases hf : b.fault b.trace.length with
  | none => exact smb349_read_first_ok b reg hf
  | some k =>
    rw [smb349_read_fail b reg k hf] at h0
    exact absurd (Int.negSucc_lt_zero k) (Int.not_lt.mpr h0)

theorem smb349_write_regs (b : Bus) (reg v : Nat) :
    (smb349_write b reg v).2.regs = b.regs ∨
    (smb349_write b reg v).2.regs = fun x => if x = reg then v % 256 else b.regs x := by
  unfold smb349_write i2c_smbus_write_byte_data
  cases b.fault b.trace.length with
  | none => exact Or.inr rfl
  | some k => exact Or.inl rfl

theorem or_write_keeps (b : Bus) (v m : Nat) (hmask : 255 &&& m = m)
    (hbyte : ∀ z, z < 256 → byte_or z v &&& m = z &&& m)
    (h0 : 0 ≤ (smb349_read b 0x30).1) :
    KeepsBits m (smb349_read b 0x30).2
      (smb349_write (smb349_read b 0x30).2 0x30 (or_bits (smb349_read b 0x30).1 v)).2 := by
  unfold KeepsBits
  rcases smb349_write_regs (smb349_read b 0x30).2 0x30 (or_bits (smb349_read b 0x30).1 v)
    with hw | hw
  · rw [hw]
  · rw [hw, smb349_read_regs, smb349_read_value b _ h0]
    show byte_or (b.regs 0x30) v &&& m = b.regs 0x30 &&& m
    rw [byte_or_mod, hbyte _ (Nat.mod_lt _ (by norm_num)), mod_and_mask _ _ hmask]

theorem clr_write_keeps (b : Bus) (bit m : Nat) (hmask : 255 &&& m = m)
    (hbyte : ∀ z, z < 256 → byte_clr z bit &&& m = z &&& m)
    (h0 : 0 ≤ (smb349_read b 0x30).1) :
    KeepsBits m (smb349_read b 0x30).2
      (smb349_write (smb349_read b 0x30).2 0x30 (and_not_bit (smb349_read b 0x30).1 bit)).2 := by
  unfold KeepsBits
  rcases smb349_write_regs (smb349_read b 0x30).2 0x30 (and_not_bit (smb349_read b 0x30).1 bit)
    with hw | hw
  · rw [hw]
  · rw [hw, smb349_read_regs, smb349_read_value b _ h0]
    show byte_clr (b.regs 0x30) bit &&& m = b.regs 0x30 &&& m
    rw [byte_clr_mod, hbyte _ (Nat.mod_lt _ (by norm_num)), mod_and_mask _ _ hmask]

theorem smb349_read_keeps (b : Bus) (reg m : Nat) : KeepsBits m b (smb349_read b reg).2 := by
  unfold KeepsBits
  rw [smb349_read_regs]

theorem update_cmd_keeps (b : Bus) (v m : Nat) (hmask : 255 &&& m = m)
    (hbyte : ∀ z, z < 256 → byte_or z v &&& m = z &&& m) :
    KeepsBits m b (smb349_update_reg b 0x30 v).2 := by
  unfold smb349_update_reg
  simp only [ite_self]
  exact bind_rel (keeps_bits_trans m) (smb349_read_keeps b _ m)
    (fun h0 => or_write_keeps b v m hmask hbyte h0)

theorem update_other_keeps (b : Bus) (reg v m : Nat) (hreg : reg ≠ 0x30) :
    KeepsBits m b (smb349_update_reg b reg v).2 := by
  unfold KeepsBits
  rw [(smb349_update_reg_on_reg b reg v).1 0x30 (fun h => hreg h.symm)]

theorem volatile_writes_keeps (b : Bus) (value m : Nat) (hmask : 255 &&& m = m)
    (h80 : ∀ z, z < 256 → byte_or z 0x80 &&& m = z &&& m)
    (h7 : ∀ z, z < 256 → byte_clr z 7 &&& m = z &&& m) :
    KeepsBits m b (smb349_volatile_writes b value).2 := by
  unfold smb349_volatile_writes
  by_cases hv : value = SMB349_ENABLE_WRITE
  · simp only [if_pos hv, ite_self]
    exact update_cmd_keeps b _ m hmask h80
  · simp only [if_neg hv, ite_self]
    exact bind_rel (keeps_bits_trans m) (smb349_read_keeps b _ m)
      (fun h0 => clr_write_keeps b 7 m hmask h7 h0)

set_option maxRecDepth 100000 in
theorem byte_keeps_otg : (∀ z, z < 256 → byte_or z 0x80 &&& 0x10 = z &&& 0x10) ∧
    (∀ z, z < 256 → byte_clr z 7 &&& 0x10 = z &&& 0x10) ∧
    (∀ z, z < 256 → byte_or z 0x02 &&& 0x10 = z &&& 0x10) := by
  decide

set_option maxRecDepth 100000 in
theorem byte_keeps_charge : (∀ z, z < 256 → byte_or z 0x80 &&& 0x02 = z &&& 0x02) ∧
    (∀ z, z < 256 → byte_clr z 7 &&& 0x02 = z &&& 0x02) ∧
    (∀ z, z < 256 → byte_or z 0x10 &&& 0x02 = z &&& 0x02) := by
  decide

theorem configure_charger_on_keeps_otg (b : Bus) :
    KeepsBits 0x10 b (smb349_configure_charger b 1).2 := by
  unfold smb349_configure_charger
  simp only [if_pos one_ne_zero]
  exact bind_rel (keeps_bits_trans _)
    (volatile_writes_keeps b _ _ (by decide) byte_keeps_otg.1 byte_keeps_otg.2.1) (fun _ =>
    bind_rel (keeps_bits_trans _) (update_cmd_keeps _ _ _ (by decide) byte_keeps_otg.2.2) (fun _ =>
    bind_rel (keeps_bits_trans _) (update_other_keeps _ _ _ _ (by decide)) (fun _ =>
      volatile_writes_keeps _ _ _ (by decide) byte_keeps_otg.1 byte_keeps_otg.2.1)))

theorem configure_otg_on_keeps_charge (b : Bus) :
    KeepsBits 0x02 b (smb349_configure_otg b 1).2 := by
  unfold smb349_configure_otg
  simp only [if_pos one_ne_zero]
  exact bind_rel (keeps_bits_trans _)
    (volatile_writes_keeps b _ _ (by decide) byte_keeps_charge.1 byte_keeps_charge.2.1) (fun _ =>
    bind_rel (keeps_bits_trans _)
      (update_cmd_keeps _ _ _ (by decide) byte_keeps_charge.2.2) (fun _ =>
      volatile_writes_keeps _ _ _ (by decide) byte_keeps_charge.1 byte_keeps_charge.2.1))

theorem configure_interrupts_keeps (b : Bus) (m : Nat) (hmask : 255 &&& m = m)
    (h80 : ∀ z, z < 256 → byte_or z 0x80 &&& m = z &&& m)
    (h7 : ∀ z, z < 256 → byte_clr z 7 &&& m = z &&& m) :
    KeepsBits m b (smb349_configure_interrupts b).2 := by
  unfold smb349_configure_interrupts
  exact bind_rel (keeps_bits_trans _) (volatile_writes_keeps b _ _ hmask h80 h7) (fun _ =>
    bind_rel (keeps_bits_trans _) (update_other_keeps _ _ _ _ (by decide)) (fun _ =>
    bind_rel (keeps_bits_trans _) (update_other_keeps _ _ _ _ (by decide)) (fun _ =>
      volatile_writes_keeps _ _ _ hmask h80 h7)))

theorem update_reg_same (b : Bus) (reg v x : Nat) (hx : x ≠ reg) :
    SameAt x b (smb349_update_reg b reg v).2 :=
  (smb349_update_reg_on_reg b reg v).1 x hx

theorem volatile_writes_same (b : Bus) (value x : Nat) (hx : x ≠ 0x30) :
    SameAt x b (smb349_volatile_writes b value).2 :=
  (smb349_volatile_writes_on_reg b value).1 x hx

theorem configure_interrupts_same_therm (b : Bus) :
    SameAt 0x07 b (smb349_configure_interrupts b).2 := by
  unfold smb349_configure_interrupts
  exact bind_rel (same_at_trans _) (volatile_writes_same b _ _ (by decide)) (fun _ =>
    bind_rel (same_at_trans _) (update_reg_same _ _ _ _ (by decide)) (fun _ =>
    bind_rel (same_at_trans _) (update_reg_same _ _ _ _ (by decide)) (fun _ =>
      volatile_writes_same _ _ _ (by decide))))

theorem issued_append {a b c : Bus} (hab : ∃ ops, b.trace = a.trace ++ ops)
    (hbc : ∃ ops, c.trace = b.trace ++ ops) :
    issued a c = issued a b ++ issued b c ∧ ∃ ops, c.trace = a.trace ++ ops := by
  obtain ⟨o1, h1⟩ := hab
  obtain ⟨o2, h2⟩ := hbc
  have h3 : c.trace = a.trace ++ (o1 ++ o2) := by
    rw [h2, h1, List.append_assoc]
  rw [issued_of_trace h1, issued_of_trace h2, issued_of_trace h3]
  exact ⟨rfl, _, h3⟩

theorem seq_trace {b : Bus} {r : Int × Bus} (hseq : ByteSeq b r) :
    ∃ ops, r.2.trace = b.trace ++ ops := by
  obtain ⟨_, ops, ht, _⟩ := hseq
  exact ⟨ops, ht⟩

theorem regs_interrupts_values (r : Nat → Nat) :
    regs_interrupts r 0x0C = 0xFF ∧ regs_interrupts r 0x0D = 0xFF := by
  have ec : regs_interrupts r 0x0C = byte_or (r 0x0C % 256) 0xff := by
    rw [← byte_or_mod]
    rfl
  have ed : regs_interrupts r 0x0D = byte_or (r 0x0D % 256) 0xff := by
    rw [← byte_or_mod]
    rfl
  rw [ec, ed]
  exact ⟨byte_or_ff_aux _ (Nat.mod_lt _ (by norm_num)),
    byte_or_ff_aux _ (Nat.mod_lt _ (by norm_num))⟩

/-- C16 (amended): for every pattern of bus failures, `smb349_otg_status` with
`OTG_STATE_A_SUSPEND` runs disable OTG, enable charging and the interrupt
configuration in this order, and with `OTG_STATE_A_HOST` runs disable charging
and enable OTG in this order: the transactions issued are those of the steps
one after the other, each step running on the bus as the step before left it,
and every step is started (it issues at least its opening read of register
0x30) whatever the outcome of the steps before it.  No step undoes what an
earlier one did to the mode bits of register 0x30 or to thermal register
0x07: the OTG bit 0x10 is at the end as the disable-OTG step left it, the
enable-charging bit 0x02 and thermal register 0x07 are at the end as the
enable-charging step left them, and after the host-role signal the
enable-charging bit is as the disable-charging step left it; the gate bit
0x80, which every step sets and clears again, is not covered.  When all bus
transactions succeed on `OTG_STATE_A_SUSPEND`, register 0x30 ends with bit
0x10 clear, bit 0x02 set and bit 0x80 clear, and registers 0x0C and 0x0D equal
0xFF. -/
theorem otg_status_best_effort (b : Bus) :
    (smb349_otg_status b usb_otg_state.OTG_STATE_A_SUSPEND =
        (smb349_configure_interrupts
          (smb349_configure_charger (smb349_configure_otg b 0).2 1).2).2 ∧
      Started b (smb349_configure_otg b 0).2 ∧
      Started (smb349_configure_otg b 0).2
        (smb349_configure_charger (smb349_configure_otg b 0).2 1).2 ∧
      Started (smb349_configure_charger (smb349_configure_otg b 0).2 1).2
        (smb349_otg_status b usb_otg_state.OTG_STATE_A_SUSPEND) ∧
      issued b (smb349_otg_status b usb_otg_state.OTG_STATE_A_SUSPEND) =
        issued b (smb349_configure_otg b 0).2 ++
          (issued (smb349_configure_otg b 0).2
              (smb349_configure_charger (smb349_configure_otg b 0).2 1).2 ++
            issued (smb349_configure_charger (smb349_configure_otg b 0).2 1).2
              (smb349_otg_status b usb_otg_state.OTG_STATE_A_SUSPEND)) ∧
      (smb349_otg_status b usb_otg_state.OTG_STATE_A_SUSPEND).regs 0x30 &&& 0x10 =
        (smb349_configure_otg b 0).2.regs 0x30 &&& 0x10 ∧
      (smb349_otg_status b usb_otg_state.OTG_STATE_A_SUSPEND).regs 0x30 &&& 0x02 =
        (smb349_configure_charger (smb349_configure_otg b 0).2 1).2.regs 0x30 &&& 0x02 ∧
      (smb349_otg_status b usb_otg_state.OTG_STATE_A_SUSPEND).regs 0x07 =
        (smb349_configure_charger (smb349_configure_otg b 0).2 1).2.regs 0x07) ∧
    (smb349_otg_status b usb_otg_state.OTG_STATE_A_HOST =
        (smb349_configure_otg (smb349_configure_charger b 0).2 1).2 ∧
      Started b (smb349_configure_charger b 0).2 ∧
      Started (smb349_configure_charger b 0).2
        (smb349_otg_status b usb_otg_state.OTG_STATE_A_HOST) ∧
      issued b (smb349_otg_status b usb_otg_state.OTG_STATE_A_HOST) =
        issued b (smb349_configure_charger b 0).2 ++
          issued (smb349_configure_charger b 0).2
            (smb349_otg_status b usb_otg_state.OTG_STATE_A_HOST) ∧
      (smb349_otg_status b usb_otg_state.OTG_STATE_A_HOST).regs 0x30 &&& 0x02 =
        (smb349_configure_charger b 0).2.regs 0x30 &&& 0x02) ∧
    (b.ok →
      (smb349_otg_status b usb_otg_state.OTG_STATE_A_SUSPEND).regs 0x30 &&& 0x10 = 0 ∧
      (smb349_otg_status b usb_otg_state.OTG_STATE_A_SUSPEND).regs 0x30 &&& 0x02 ≠ 0 ∧
      (smb349_otg_status b usb_otg_state.OTG_STATE_A_SUSPEND).regs 0x30 &&& 0x80 = 0 ∧
      (smb349_otg_status b usb_otg_state.OTG_STATE_A_SUSPEND).regs 0x0C = 0xFF ∧
      (smb349_otg_status b usb_otg_state.OTG_STATE_A_SUSPEND).regs 0x0D = 0xFF) := by
  have hs : smb349_otg_status b usb_otg_state.OTG_STATE_A_SUSPEND =
      (smb349_configure_interrupts
        (smb349_configure_charger (smb349_configure_otg b 0).2 1).2).2 := rfl
  have hh : smb349_otg_status b usb_otg_state.OTG_STATE_A_HOST =
      (smb349_configure_otg (smb349_configure_charger b 0).2 1).2 := rfl
  refine ⟨?_, ?_, ?_⟩
  · rw [hs]
    have t1 := seq_trace (smb349_configure_otg_seq b 0)
    have t2 := seq_trace (smb349_configure_charger_seq (smb349_configure_otg b 0).2 1)
    have t3 := seq_trace (smb349_configure_interrupts_seq
      (smb349_configure_charger (smb349_configure_otg b 0).2 1).2)
    refine ⟨rfl, configure_otg_started b 0, configure_charger_started _ 1,
      configure_interrupts_started _, ?_, ?_, ?_, ?_⟩
    · rw [(issued_append t1 (issued_append t2 t3).2).1, (issued_append t2 t3).1]
    · exact keeps_bits_trans _ _ _ _ (configure_charger_on_keeps_otg _)
        (configure_interrupts_keeps _ _ (by decide) byte_keeps_otg.1 byte_keeps_otg.2.1)
    · exact configure_interrupts_keeps _ _ (by decide) byte_keeps_charge.1 byte_keeps_charge.2.1
    · exact configure_interrupts_same_therm _
  · rw [hh]
    have t1 := seq_trace (smb349_configure_charger_seq b 0)
    have t2 := seq_trace (smb349_configure_otg_seq (smb349_configure_charger b 0).2 1)
    exact ⟨rfl, configure_charger_started b 0, configure_otg_started _ 1,
      (issued_append t1 t2).1, configure_otg_on_keeps_charge _⟩
  · intro hok
    obtain ⟨r, f, t⟩ := b
    rw [otg_status_suspend_ok r f t hok]
    exact ⟨(regs_suspend_cmd r).1, (regs_suspend_cmd r).2.1, (regs_suspend_cmd r).2.2,
      (regs_interrupts_values _).1, (regs_interrupts_values _).2⟩

/-- C16 (witness): leaving the host role on a fault-free all-zero chip ends
with register 0x30 at 0x02 and registers 0x0C and 0x0D at 0xFF. -/
theorem otg_status_best_effort_witness :
    zero_bus.ok ∧
    (smb349_otg_status zero_bus usb_otg_state.OTG_STATE_A_SUSPEND).regs 0x30 &&& 0x10 = 0 ∧
    (smb349_otg_status zero_bus usb_otg_state.OTG_STATE_A_SUSPEND).regs 0x30 &&& 0x02 ≠ 0 ∧
    (smb349_otg_status zero_bus usb_otg_state.OTG_STATE_A_SUSPEND).regs 0x30 &&& 0x80 = 0 ∧
    (smb349_otg_status zero_bus usb_otg_state.OTG_STATE_A_SUSPEND).regs 0x0C = 0xFF ∧
    (smb349_otg_status zero_bus usb_otg_state.OTG_STATE_A_SUSPEND).regs 0x0D = 0xFF :=
  ⟨fun _ => rfl, (otg_status_best_effort zero_bus).2.2 (fun _ => rfl)⟩

/-! ## Presence query and transport failure -/

theorem battery_online_fail (b : Bus) (k : Nat) (hrd : b.fault b.trace.length = some k) :
    (smb349_battery_online b).1 = Int.negSucc k := by
  unfold smb349_battery_online
  rw [smb349_read_fail b _ k hrd, if_pos (Int.negSucc_lt_zero k)]

theorem battery_online_success (b : Bus) (hrd : b.fault b.trace.length = none) :
    (smb349_battery_online b).1 = if b.regs 0x36 % 256 &&& 0x10 = 0 then 1 else 0 := by
  unfold smb349_battery_online
  rw [smb349_read_success b _ hrd, if_neg (ofNat_not_neg _)]
  unfold test_bits
  by_cases hbit : b.regs 0x36 % 256 &&& 0x10 = 0
  · have hn : ¬ (((Int.ofNat (b.regs 0x36 % 256)).toNat &&& BATTERY_MISSING) != 0) = true := by
      simpa using hbit
    rw [if_neg hn, if_pos hbit]
  · have hp : (((Int.ofNat (b.regs 0x36 % 256)).toNat &&& BATTERY_MISSING) != 0) = true := by
      simpa using hbit
    rw [if_pos hp, if_neg hbit]

theorem probe_continues (b : Bus) (env : ProbeEnv) (hfun : env.smbus_byte = true)
    (hmem : env.kzalloc_ok = true) (hne : (smb349_battery_online b).1 ≠ 0) :
    smb349_probe b env = probe_after_presence (smb349_battery_online b).2 env := by
  unfold smb349_probe probe_after_presence
  simp only [hfun, hmem, Bool.not_true, Bool.false_eq_true, if_false, if_neg hne]

theorem probe_after_presence_registers (bo : Bus) (env : ProbeEnv) :
    (probe_after_presence bo env).otg_registered = true := by
  unfold probe_after_presence
  split_ifs <;> rfl

theorem probe_after_presence_configures (bo : Bus) (env : ProbeEnv)
    (hotg : 0 ≤ env.otg_callback_ret) :
    ∃ rest, issued bo (probe_after_presence bo env).bus =
      issued bo (smb349_configure_charger bo 1).2 ++ rest := by
  have t1 := seq_trace (smb349_configure_charger_seq bo 1)
  have t2 := seq_trace (smb349_configure_interrupts_seq (smb349_configure_charger bo 1).2)
  have hlater : ∃ rest, issued bo (smb349_configure_interrupts (smb349_configure_charger bo 1).2).2 =
      issued bo (smb349_configure_charger bo 1).2 ++ rest := ⟨_, (issued_append t1 t2).1⟩
  unfold probe_after_presence
  rw [if_neg (Int.not_lt.mpr hotg)]
  split_ifs
  · exact ⟨[], (List.append_nil _).symm⟩
  · exact hlater
  · exact hlater
  · exact hlater

/-- C20: `smb349_battery_online` returns 1 exactly when the read of register
0x36 succeeds with bit 0x10 clear, 0 exactly when it succeeds with bit 0x10
set, and the negative transport error code when the read fails.  When the
presence read fails (and the functionality check and the allocation pass),
`smb349_probe` does not abort at the presence check: it calls
`register_otg_callback` and goes on with the same continuation, on the bus the
presence query left, as when the query returns 1; if the registration
succeeds, the transactions that follow the presence read begin with those of
`smb349_configure_charger` with value 1. -/
theorem battery_online_and_probe (b : Bus) (env : ProbeEnv) :
    ((smb349_battery_online b).1 = 1 ↔
      b.fault b.trace.length = none ∧ b.regs 0x36 % 256 &&& 0x10 = 0) ∧
    ((smb349_battery_online b).1 = 0 ↔
      b.fault b.trace.length = none ∧ b.regs 0x36 % 256 &&& 0x10 ≠ 0) ∧
    (∀ k, b.fault b.trace.length = some k →
      (smb349_battery_online b).1 = Int.negSucc k ∧
      (env.smbus_byte = true → env.kzalloc_ok = true →
        (smb349_probe b env).otg_registered = true ∧
        smb349_probe b env = probe_after_presence (smb349_battery_online b).2 env ∧
        (0 ≤ env.otg_callback_ret →
          ∃ rest, issued (smb349_battery_online b).2 (smb349_probe b env).bus =
            issued (smb349_battery_online b).2
              (smb349_configure_charger (smb349_battery_online b).2 1).2 ++ rest))) ∧
    (env.smbus_byte = true → env.kzalloc_ok = true → (smb349_battery_online b).1 = 1 →
      smb349_probe b env = probe_after_presence (smb349_battery_online b).2 env) := by
  refine ⟨?_, ?_, ?_, ?_⟩
  · cases hf : b.fault b.trace.length with
    | none =>
      rw [battery_online_success b hf]
      by_cases hbit : b.regs 0x36 % 256 &&& 0x10 = 0
      · rw [if_pos hbit]
        exact ⟨fun _ => ⟨rfl, hbit⟩, fun _ => rfl⟩
      · rw [if_neg hbit]
        exact ⟨fun h => absurd h (by decide), fun h => absurd h.2 hbit⟩
    | some k =>
      rw [battery_online_fail b k hf]
      constructor
      · intro h
        have hneg := Int.negSucc_lt_zero k
        rw [h] at hneg
        exact absurd hneg (by decide)
      · intro h
        cases h.1
  · cases hf : b.fault b.trace.length with
    | none =>
      rw [battery_online_success b hf]
      by_cases hbit : b.regs 0x36 % 256 &&& 0x10 = 0
      · rw [if_pos hbit]
        exact ⟨fun h => absurd h (by decide), fun h => absurd hbit h.2⟩
      · rw [if_neg hbit]
        exact ⟨fun _ => ⟨rfl, hbit⟩, fun _ => rfl⟩
    | some k =>
      rw [battery_online_fail b k hf]
      constructor
      · intro h
        have hneg := Int.negSucc_lt_zero k
        rw [h] at hneg
        exact absurd hneg (by decide)
      · intro h
        cases h.1
  · intro k hf
    refine ⟨battery_online_fail b k hf, ?_⟩
    intro hfun hmem
    have hne : (smb349_battery_online b).1 ≠ 0 := by
      rw [battery_online_fail b k hf]
      intro h
      have hneg := Int.negSucc_lt_zero k
      rw [h] at hneg
      exact absurd hneg (by decide)
    have hcont := probe_continues b env hfun hmem hne
    rw [hcont]
    exact ⟨probe_after_presence_registers _ env, rfl,
      fun hotg => probe_after_presence_configures _ env hotg⟩
  · intro hfun hmem h1
    exact probe_continues b env hfun hmem (by rw [h1]; decide)

/-- C20 (witness): on an all-zero chip whose presence read fails with -5 and
whose other transactions succeed, the presence query returns -5 and
`smb349_probe` registers the OTG callback, configures charging, requests the
interrupt handler and returns 0. -/
theorem battery_online_and_probe_witness :
    (smb349_battery_online presence_fail_bus).1 = -5 ∧
    (smb349_probe presence_fail_bus (attach_env 0)).otg_registered = true ∧
    (smb349_probe presence_fail_bus (attach_env 0)).irq_requested = true ∧
    (smb349_probe presence_fail_bus (attach_env 0)).ret = 0 ∧
    (smb349_probe presence_fail_bus (attach_env 0)).bus.regs 0x30 = 0x02 :=
  ⟨((battery_online_and_probe presence_fail_bus (attach_env 0)).2.2.1 4 rfl).1,
   (((battery_online_and_probe presence_fail_bus (attach_env 0)).2.2.1 4 rfl).2 rfl rfl).1,
   by decide, by decide, by decide⟩

/-! ## Mutual exclusion under bus failures -/

theorem smb349_write_success_regs (b : Bus) (reg v : Nat) (h0 : 0 ≤ (smb349_write b reg v).1) :
    (smb349_write b reg v).2.regs reg = v % 256 := by
  unfold smb349_write i2c_smbus_write_byte_data at h0 ⊢
  cases hf : b.fault b.trace.length with
  | none => exact if_pos rfl
  | some k =>
    rw [hf] at h0
    exact absurd (Int.negSucc_lt_zero k) (Int.not_lt.mpr h0)

theorem clr_block_clears (b : Bus) (bit m : Nat)
    (hbyte : ∀ z, z < 256 → byte_clr z bit &&& m = 0)
    (h0 : 0 ≤ (smb349_read b 0x30).1)
    (h1 : 0 ≤ (smb349_write (smb349_read b 0x30).2 0x30
      (and_not_bit (smb349_read b 0x30).1 bit)).1) :
    (smb349_write (smb349_read b 0x30).2 0x30
      (and_not_bit (smb349_read b 0x30).1 bit)).2.regs 0x30 &&& m = 0 := by
  rw [smb349_write_success_regs _ _ _ h1, smb349_read_value b _ h0]
  show byte_clr (b.regs 0x30) bit &&& m = 0
  rw [byte_clr_mod]
  exact hbyte _ (Nat.mod_lt _ (by norm_num))

set_option maxRecDepth 100000 in
theorem byte_clr_mode_bits : (∀ z, z < 256 → byte_clr z 1 &&& 0x02 = 0) ∧
    (∀ z, z < 256 → byte_clr z 4 &&& 0x10 = 0) := by
  decide

theorem configure_charger_off_clears (b : Bus) (hret : (smb349_configure_charger b 0).1 = 0) :
    (smb349_configure_charger b 0).2.regs 0x30 &&& 0x02 = 0 := by
  unfold smb349_configure_charger at hret ⊢
  simp only [ne_eq, not_true_eq_false, if_false] at hret ⊢
  by_cases h1 : (smb349_volatile_writes b SMB349_ENABLE_WRITE).1 < 0
  · rw [if_pos h1] at hret
    rw [hret] at h1
    exact absurd h1 (lt_irrefl _)
  · rw [if_neg h1] at hret ⊢
    by_cases h2 : (smb349_read (smb349_volatile_writes b SMB349_ENABLE_WRITE).2
        SMB349_CMD_REG).1 < 0
    · rw [if_pos h2] at hret
      rw [hret] at h2
      exact absurd h2 (lt_irrefl _)
    · rw [if_neg h2] at hret ⊢
      by_cases h3 : (smb349_write (smb349_read (smb349_volatile_writes b SMB349_ENABLE_WRITE).2
          SMB349_CMD_REG).2 SMB349_CMD_REG
          (and_not_bit (smb349_read (smb349_volatile_writes b SMB349_ENABLE_WRITE).2
            SMB349_CMD_REG).1 1)).1 < 0
      · rw [if_pos h3] at hret
        rw [hret] at h3
        exact absurd h3 (lt_irrefl _)
      · rw [if_neg h3]
        have hk := volatile_writes_keeps (smb349_write (smb349_read
          (smb349_volatile_writes b SMB349_ENABLE_WRITE).2 SMB349_CMD_REG).2 SMB349_CMD_REG
          (and_not_bit (smb349_read (smb349_volatile_writes b SMB349_ENABLE_WRITE).2
            SMB349_CMD_REG).1 1)).2 SMB349_DISABLE_WRITE 0x02 (by decide)
          byte_keeps_charge.1 byte_keeps_charge.2.1
        unfold KeepsBits at hk
        rw [hk]
        exact clr_block_clears _ 1 0x02 byte_clr_mode_bits.1 (Int.not_lt.mp h2)
          (Int.not_lt.mp h3)

theorem configure_otg_off_clears (b : Bus) (hret : (smb349_configure_otg b 0).1 = 0) :
    (smb349_configure_otg b 0).2.regs 0x30 &&& 0x10 = 0 := by
  unfold smb349_configure_otg at hret ⊢
  simp only [ne_eq, not_true_eq_false, if_false] at hret ⊢
  by_cases h1 : (smb349_volatile_writes b SMB349_ENABLE_WRITE).1 < 0
  · rw [if_pos h1] at hret
    rw [hret] at h1
    exact absurd h1 (lt_irrefl _)
  · rw [if_neg h1] at hret ⊢
    by_cases h2 : (smb349_read (smb349_volatile_writes b SMB349_ENABLE_WRITE).2
        SMB349_CMD_REG).1 < 0
    · rw [if_pos h2] at hret
      rw [hret] at h2
      exact absurd h2 (lt_irrefl _)
    · rw [if_neg h2] at hret ⊢
      by_cases h3 : (smb349_write (smb349_read (smb349_volatile_writes b SMB349_ENABLE_WRITE).2
          SMB349_CMD_REG).2 SMB349_CMD_REG
          (and_not_bit (smb349_read (smb349_volatile_writes b SMB349_ENABLE_WRITE).2
            SMB349_CMD_REG).1 4)).1 < 0
      · rw [if_pos h3] at hret
        rw [hret] at h3
        exact absurd h3 (lt_irrefl _)
      · rw [if_neg h3]
        have hk := volatile_writes_keeps (smb349_write (smb349_read
          (smb349_volatile_writes b SMB349_ENABLE_WRITE).2 SMB349_CMD_REG).2 SMB349_CMD_REG
          (and_not_bit (smb349_read (smb349_volatile_writes b SMB349_ENABLE_WRITE).2
            SMB349_CMD_REG).1 4)).2 SMB349_DISABLE_WRITE 0x10 (by decide)
          byte_keeps_otg.1 byte_keeps_otg.2.1
        unfold KeepsBits at hk
        rw [hk]
        exact clr_block_clears _ 4 0x10 byte_clr_mode_bits.2 (Int.not_lt.mp h2)
          (Int.not_lt.mp h3)

theorem host_keeps_charge_bit (b : Bus) :
    (smb349_otg_status b usb_otg_state.OTG_STATE_A_HOST).regs 0x30 &&& 0x02 =
      (smb349_configure_charger b 0).2.regs 0x30 &&& 0x02 :=
  configure_otg_on_keeps_charge (smb349_configure_charger b 0).2

theorem suspend_keeps_otg_bit (b : Bus) :
    (smb349_otg_status b usb_otg_state.OTG_STATE_A_SUSPEND).regs 0x30 &&& 0x10 =
      (smb349_configure_otg b 0).2.regs 0x30 &&& 0x10 :=
  keeps_bits_trans _ _ _ _ (configure_charger_on_keeps_otg _)
    (configure_interrupts_keeps _ _ (by decide) byte_keeps_otg.1 byte_keeps_otg.2.1)

/-- C3 (amended): for every initial register contents, for both mode signals
and for every outcome of the individual bus transactions in which the first
step of the transition (disable charging on `OTG_STATE_A_HOST`, disable OTG on
`OTG_STATE_A_SUSPEND`) leaves the bit it is to clear (0x02, respectively 0x10)
clear in register 0x30, in particular whenever that first step returns 0, the
command register does not have both the OTG-enable bit 0x10 and the
enable-charging bit 0x02 set after `smb349_otg_status` returns, whatever the
outcome of the later steps. -/
theorem otg_status_mutual_exclusion (b : Bus) :
    ((smb349_configure_charger b 0).2.regs 0x30 &&& 0x02 = 0 →
      ¬ ((smb349_otg_status b usb_otg_state.OTG_STATE_A_HOST).regs 0x30 &&& 0x10 ≠ 0 ∧
         (smb349_otg_status b usb_otg_state.OTG_STATE_A_HOST).regs 0x30 &&& 0x02 ≠ 0)) ∧
    ((smb349_configure_charger b 0).1 = 0 →
      ¬ ((smb349_otg_status b usb_otg_state.OTG_STATE_A_HOST).regs 0x30 &&& 0x10 ≠ 0 ∧
         (smb349_otg_status b usb_otg_state.OTG_STATE_A_HOST).regs 0x30 &&& 0x02 ≠ 0)) ∧
    ((smb349_configure_otg b 0).2.regs 0x30 &&& 0x10 = 0 →
      ¬ ((smb349_otg_status b usb_otg_state.OTG_STATE_A_SUSPEND).regs 0x30 &&& 0x10 ≠ 0 ∧
         (smb349_otg_status b usb_otg_state.OTG_STATE_A_SUSPEND).regs 0x30 &&& 0x02 ≠ 0)) ∧
    ((smb349_configure_otg b 0).1 = 0 →
      ¬ ((smb349_otg_status b usb_otg_state.OTG_STATE_A_SUSPEND).regs 0x30 &&& 0x10 ≠ 0 ∧
         (smb349_otg_status b usb_otg_state.OTG_STATE_A_SUSPEND).regs 0x30 &&& 0x02 ≠ 0)) := by
  have hhost : (smb349_configure_charger b 0).2.regs 0x30 &&& 0x02 = 0 →
      ¬ ((smb349_otg_status b usb_otg_state.OTG_STATE_A_HOST).regs 0x30 &&& 0x10 ≠ 0 ∧
         (smb349_otg_status b usb_otg_state.OTG_STATE_A_HOST).regs 0x30 &&& 0x02 ≠ 0) := by
    intro hclr hboth
    apply hboth.2
    rw [host_keeps_charge_bit b]
    exact hclr
  have hsusp : (smb349_configure_otg b 0).2.regs 0x30 &&& 0x10 = 0 →
      ¬ ((smb349_otg_status b usb_otg_state.OTG_STATE_A_SUSPEND).regs 0x30 &&& 0x10 ≠ 0 ∧
         (smb349_otg_status b usb_otg_state.OTG_STATE_A_SUSPEND).regs 0x30 &&& 0x02 ≠ 0) := by
    intro hclr hboth
    apply hboth.1
    rw [suspend_keeps_otg_bit b]
    exact hclr
  exact ⟨hhost, fun hret => hhost (configure_charger_off_clears b hret),
    hsusp, fun hret => hsusp (configure_otg_off_clears b hret)⟩

/-- C3 (witness): with the first step returning 0 and a later transaction
failing (transaction 7), neither mode signal leaves both bits set. -/
theorem otg_status_mutual_exclusion_witness :
    host_late_fail_bus.fault 7 = some 4 ∧
    (smb349_configure_charger host_late_fail_bus 0).1 = 0 ∧
    ¬ ((smb349_otg_status host_late_fail_bus usb_otg_state.OTG_STATE_A_HOST).regs 0x30
          &&& 0x10 ≠ 0 ∧
       (smb349_otg_status host_late_fail_bus usb_otg_state.OTG_STATE_A_HOST).regs 0x30
          &&& 0x02 ≠ 0) ∧
    (smb349_configure_otg suspend_late_fail_bus 0).1 = 0 ∧
    ¬ ((smb349_otg_status suspend_late_fail_bus usb_otg_state.OTG_STATE_A_SUSPEND).regs 0x30
          &&& 0x10 ≠ 0 ∧
       (smb349_otg_status suspend_late_fail_bus usb_otg_state.OTG_STATE_A_SUSPEND).regs 0x30
          &&& 0x02 ≠ 0) :=
  ⟨rfl, by decide, (otg_status_mutual_exclusion host_late_fail_bus).2.1 (by decide),
   by decide, (otg_status_mutual_exclusion suspend_late_fail_bus).2.2.2 (by decide)⟩

/-- C16 (counterexample): OTG is enabled (register 0x30 holds 0x10) and the
third bus transaction fails.  The disable-OTG step sets the gate bit and
aborts, leaving 0x90; the enable-charging step that follows clears the gate
bit again and the run ends with 0x12: a later step has undone a register
change of an earlier one. -/
theorem otg_status_gate_bit_undone :
    otg_abort_bus.regs 0x30 &&& 0x80 = 0 ∧
    (smb349_configure_otg otg_abort_bus 0).2.regs 0x30 = 0x90 ∧
    (smb349_configure_otg otg_abort_bus 0).2.regs 0x30 &&& 0x80 ≠ 0 ∧
    (smb349_otg_status otg_abort_bus usb_otg_state.OTG_STATE_A_SUSPEND).regs 0x30 = 0x12 ∧
    (smb349_otg_status otg_abort_bus usb_otg_state.OTG_STATE_A_SUSPEND).regs 0x30 &&& 0x80 = 0 := by
  decide

end SMB349
